import Mathlib

/-!
Verification development for the LogOps repository (Django log-exploration
dashboard).  The definitions below are a shallow embedding of the Python
source in `app/views.py` and `services/elasticsearch_service.py`:

* Python `str` values are Lean `String` (a structure over `List Char`);
  character-level operations (`lower`, `strip`, `split`, `in`, `replace`,
  `title`) are re-implemented for the ASCII fragment the code manipulates.
* `datetime` instants are modelled as `Nat` seconds; `strftime`/ISO
  rendering is abstracted to the decimal rendering of that counter (the
  exact calendar text is irrelevant to every property proved here).
* The `random` module is modelled by an explicit stream of naturals
  (`RS`); `random.randint lo hi` consumes one draw `n` and yields
  `lo + n % (hi+1-lo)`, so every draw lies in the documented range.
* Network calls (`requests.get/post`) are modelled by an oracle
  (`StoreBehavior`, `RemoteOracle`) mapping each request to an outcome:
  either an HTTP status plus parsed body, or a raised exception.
* Django's cache is a read-only map in `World`; cache writes are recorded
  as effects.  Every handler returns its response together with the list
  of side effects it performed, in order.
-/

/-! ### Python string primitives -/

/-- Characters `str.strip()` removes (Python whitespace, ASCII fragment). -/
def isPySpace (c : Char) : Bool :=
  c = ' ' || c = '\t' || c = '\n' || c = '\r' || c = '\x0b' || c = '\x0c'

/-- ASCII lower-casing of one character, as `str.lower()` does on ASCII. -/
def lowerChar (c : Char) : Char :=
  if c = 'A' then 'a' else if c = 'B' then 'b' else if c = 'C' then 'c'
  else if c = 'D' then 'd' else if c = 'E' then 'e' else if c = 'F' then 'f'
  else if c = 'G' then 'g' else if c = 'H' then 'h' else if c = 'I' then 'i'
  else if c = 'J' then 'j' else if c = 'K' then 'k' else if c = 'L' then 'l'
  else if c = 'M' then 'm' else if c = 'N' then 'n' else if c = 'O' then 'o'
  else if c = 'P' then 'p' else if c = 'Q' then 'q' else if c = 'R' then 'r'
  else if c = 'S' then 's' else if c = 'T' then 't' else if c = 'U' then 'u'
  else if c = 'V' then 'v' else if c = 'W' then 'w' else if c = 'X' then 'x'
  else if c = 'Y' then 'y' else if c = 'Z' then 'z' else c

/-- ASCII upper-casing of one character (used by `str.title()`). -/
def upperChar (c : Char) : Char :=
  if c = 'a' then 'A' else if c = 'b' then 'B' else if c = 'c' then 'C'
  else if c = 'd' then 'D' else if c = 'e' then 'E' else if c = 'f' then 'F'
  else if c = 'g' then 'G' else if c = 'h' then 'H' else if c = 'i' then 'I'
  else if c = 'j' then 'J' else if c = 'k' then 'K' else if c = 'l' then 'L'
  else if c = 'm' then 'M' else if c = 'n' then 'N' else if c = 'o' then 'O'
  else if c = 'p' then 'P' else if c = 'q' then 'Q' else if c = 'r' then 'R'
  else if c = 's' then 'S' else if c = 't' then 'T' else if c = 'u' then 'U'
  else if c = 'v' then 'V' else if c = 'w' then 'W' else if c = 'x' then 'X'
  else if c = 'y' then 'Y' else if c = 'z' then 'Z' else c

/-- ASCII letter test (the cased characters relevant to `str.title()`). -/
def isAsciiAlpha (c : Char) : Bool :=
  ('a' ≤ c && c ≤ 'z') || ('A' ≤ c && c ≤ 'Z')

/-- Python `str.lower()` on the ASCII fragment. -/
def pyLower (s : String) : String := ⟨s.data.map lowerChar⟩

/-- Removes the maximal trailing run of characters satisfying `p`
(the recursion mirrors `str.rstrip()`). -/
def rdropWhileP (p : Char → Bool) : List Char → List Char
  | [] => []
  | c :: cs =>
    let r := rdropWhileP p cs
    if r = [] && p c then [] else c :: r

/-- Python `str.strip()` on a character list: leading drop then trailing drop. -/
def pyStripL (l : List Char) : List Char :=
  rdropWhileP isPySpace (l.dropWhile isPySpace)

/-- Python `str.strip()`. -/
def pyStrip (s : String) : String := ⟨pyStripL s.data⟩

/-- Python `str.split('\n')` on a character list: splits at every newline,
keeping empty chunks, never returning an empty list of chunks. -/
def splitNL : List Char → List (List Char)
  | [] => [[]]
  | c :: cs =>
    if c = '\n' then [] :: splitNL cs
    else
      match splitNL cs with
      | [] => [[c]]
      | l :: ls => (c :: l) :: ls

/-- Does `l` start with the pattern `pat`? -/
def startsW : List Char → List Char → Bool
  | [], _ => true
  | _ :: _, [] => false
  | p :: ps, c :: cs => p = c && startsW ps cs

/-- Python's substring test `pat in l` (contiguous occurrence). -/
def isSubL (pat : List Char) : List Char → Bool
  | [] => startsW pat []
  | c :: cs => startsW pat (c :: cs) || isSubL pat cs

/-- Python `needle in hay` for strings. -/
def pyIn (needle hay : String) : Bool := isSubL needle.data hay.data

/-- Python `'\n'.join(lines)` on character lists. -/
def joinNL : List (List Char) → List Char
  | [] => []
  | [l] => l
  | l :: ls => l ++ '\n' :: joinNL ls

/-- Python `str.replace(pat, repl)` (all occurrences, left to right),
recursing on a fuel bound that always dominates the remaining length;
`pat` is never empty at the call sites embedded here. -/
def replaceAux (pat repl : List Char) : Nat → List Char → List Char
  | _, [] => []
  | 0, l => l
  | fuel + 1, c :: rest =>
    if startsW pat (c :: rest) && !pat.isEmpty then
      repl ++ replaceAux pat repl fuel (List.drop (pat.length - 1) rest)
    else
      c :: replaceAux pat repl fuel rest

/-- Python `str.replace` for strings. -/
def pyReplace (s pat repl : String) : String :=
  ⟨replaceAux pat.data repl.data s.data.length s.data⟩

/-- Helper for `str.title()`: the boolean records whether the previous
character was a cased (ASCII letter) character. -/
def titleAux (prevAlpha : Bool) : List Char → List Char
  | [] => []
  | c :: cs =>
    (if isAsciiAlpha c then (if prevAlpha then lowerChar c else upperChar c) else c)
      :: titleAux (isAsciiAlpha c) cs

/-- Python `str.title()` on the ASCII fragment. -/
def pyTitle (s : String) : String := ⟨titleAux false s.data⟩

/-- Python `f"{n:03d}"` for the pod numbers 1–3 used by the generator. -/
def pad3 (n : Nat) : String :=
  if n < 10 then "00" ++ toString n
  else if n < 100 then "0" ++ toString n
  else toString n

/-- The first `'\n'`-separated chunk of a character list. -/
def firstLine (l : List Char) : List Char := (splitNL l).headD []

/-! ### Data model -/

/-- Outcome of one HTTP call made through `requests`: either a response
with a status code and a (parsed) body, or a raised exception. -/
inductive HttpOutcome (β : Type) where
  | ok (status : Nat) (body : β)
  | exn (msg : String)
deriving DecidableEq

/-- One log document as indexed into / returned by the search store
(`@timestamp` and `timestamp` always carry the same instant, and
`log_message`/`message` the same text, so each pair is one field here;
`response_time` is the float seconds scaled to milliseconds). -/
structure LogEntry where
  timestamp : Nat
  application : String
  cluster : String
  bundle : String
  pod : String
  log_level : String
  log_message : String
  source_file : String
  response_time : Option Nat := none
  status_code : Option Nat := none
deriving DecidableEq

/-- A pod entry produced by pod discovery (`name` plus display name). -/
structure PodInfo where
  name : String
  display_name : String
deriving DecidableEq

/-- One clause of the boolean `must` list of a search query. -/
inductive QueryClause where
  | term (field : String) (value : String)
  | multiMatch (text : String)
deriving DecidableEq

/-- The structured search request body built by `search_logs`
(sort is always `@timestamp` descending in the source, so it is implicit). -/
structure ESQuery where
  must : List QueryClause
  matchAll : Bool
  size : Nat
deriving DecidableEq

/-- The aggregation request body built by `get_log_statistics`. -/
structure ESStatsQuery where
  must : List (String × String)
deriving DecidableEq

/-- Parsed body of a successful `_search` response. -/
structure SearchBody where
  hits : List LogEntry
  total : Nat
deriving DecidableEq

/-- Parsed aggregation buckets of a successful statistics response. -/
structure StatsData where
  total_logs : Nat
  log_levels : List (String × Nat)
  applications : List (String × Nat)
  clusters : List (String × Nat)
  pods : List (String × Nat)
  bundles : List (String × Nat)
deriving DecidableEq

/-- The behaviour of the backing search store as observed through HTTP:
one outcome per request shape.  `healthProbe` takes the timeout (seconds)
the caller used; a body of `none` models an unparseable 200 response
(`KeyError` while reading it). -/
structure StoreBehavior where
  healthProbe : Nat → HttpOutcome Unit
  searchResp : ESQuery → HttpOutcome (Option SearchBody)
  statsResp : ESStatsQuery → HttpOutcome (Option StatsData)
  bulkResp : List LogEntry → HttpOutcome (Option (List Nat))
  baseUrlIsCloud : Bool

/-- Query parameters handed to `elasticsearch_service.search_logs`
(a Python dict whose keys may be absent). -/
structure QueryParams where
  application : Option String := none
  cluster : Option String := none
  bundle : Option String := none
  pod : Option String := none
  log_level : Option String := none
  search_text : Option String := none
  size : Option Nat := none
  page : Option Nat := none
deriving DecidableEq

/-- Filters handed to `elasticsearch_service.get_log_statistics`. -/
structure StatsFilters where
  application : Option String := none
  cluster : Option String := none
  bundle : Option String := none
deriving DecidableEq

/-- Python truthiness of an optional string (absent or empty is falsy). -/
def optTruthy (o : Option String) : Bool :=
  match o with
  | none => false
  | some s => !s.isEmpty

/-- One side effect performed by a request handler, in order. -/
inductive Effect where
  | storeSearch (params : QueryParams)
  | storeStats (filters : StatsFilters)
  | storeBulk (docs : Nat)
  | cacheReadPods (key : String)
  | cacheReadLogs (key : String)
  | cacheWritePods (key : String) (value : List PodInfo)
  | cacheWriteLogs (key : String) (value : String)
  | fileRead (name : String)
  | remoteModel
  | localAnalysis
deriving DecidableEq

/-- Is an effect a bulk-index attempt against the search store? -/
def Effect.isBulk : Effect → Bool
  | .storeBulk _ => true
  | _ => false

/-- The world a request executes against: the Django cache contents at
request time, the optional pods-config file, and the current wall clock. -/
structure World where
  podsCache : String → Option (List PodInfo)
  podLogsCache : String → Option String
  podsConfigFile : Option (String → String → String → List PodInfo)
  now : Nat

/-! ### `services/elasticsearch_service.py` -/

/-- `ElasticsearchService.is_available`, split into the `try` body:
a `GET _cluster/health` with a 5-second timeout, succeeding iff the
status is 200; an exception escapes the body. -/
def is_available_attempt (st : StoreBehavior) : Except String Bool :=
  match st.healthProbe 5 with
  | .ok status _ => .ok (status = 200)
  | .exn e => .error e

/-- `ElasticsearchService.is_available`: the bare `except` converts any
raised exception into `False`. -/
def is_available (st : StoreBehavior) : Bool :=
  match is_available_attempt st with
  | .ok b => b
  | .error _ => false

/-- The query body built inside `search_logs`: term clauses for the five
exact-match fields when (truthily) present, a `multi_match` clause for
`search_text`, `match_all` when no clause applies, default size 100. -/
def buildSearchQuery (p : QueryParams) : ESQuery :=
  let fields : List (String × Option String) :=
    [("application", p.application), ("cluster", p.cluster), ("bundle", p.bundle),
     ("pod", p.pod), ("log_level", p.log_level)]
  let terms := fields.filterMap fun fv =>
    if optTruthy fv.2 then some (QueryClause.term fv.1 (fv.2.getD "")) else none
  let must := terms ++
    (if optTruthy p.search_text then [QueryClause.multiMatch (p.search_text.getD "")] else [])
  { must := must, matchAll := must.isEmpty, size := p.size.getD 100 }

/-- The `{logs, total, page, size}` / `{logs, total, error}` dict returned
by `search_logs` (absent keys are `none`). -/
structure SearchLogsResult where
  logs : List LogEntry
  total : Nat
  page : Option Nat := none
  size : Option Nat := none
  error : Option String := none
deriving DecidableEq

/-- The error-shaped result `search_logs` builds on every failure. -/
def searchErrResult (e : String) : SearchLogsResult :=
  { logs := [], total := 0, error := some e }

/-- The `try` body of `search_logs`: availability check, query build,
POST to `_search`, and parsing of the 200 body (an `exn` arm or an
unparseable body raises). -/
def search_logs_attempt (st : StoreBehavior) (p : QueryParams) :
    Except String SearchLogsResult :=
  if !is_available st then
    .ok (searchErrResult "Elasticsearch not available")
  else
    match st.searchResp (buildSearchQuery p) with
    | .ok status body =>
        if status = 200 then
          match body with
          | some b =>
              .ok { logs := b.hits, total := b.total,
                    page := some (p.page.getD 1), size := some b.hits.length }
          | none => .error "KeyError: hits"
        else .ok (searchErrResult ("HTTP " ++ toString status))
    | .exn e => .error e

/-- `ElasticsearchService.search_logs`: the component-boundary
`except Exception` converts any raised exception into the empty
error-carrying result. -/
def search_logs (st : StoreBehavior) (p : QueryParams) : SearchLogsResult :=
  match search_logs_attempt st p with
  | .ok r => r
  | .error e => searchErrResult e

/-- Result of `bulk_index_logs`. -/
structure BulkResult where
  indexed : Nat
  errors : Nat
deriving DecidableEq

/-- `ElasticsearchService.bulk_index_logs`: empty input short-circuits
without any HTTP call; otherwise one `_bulk` POST whose per-item statuses
are counted, any failure counting the whole batch as errors. -/
def bulk_index_logs (st : StoreBehavior) (logs : List LogEntry) : BulkResult :=
  if logs.isEmpty then { indexed := 0, errors := 0 }
  else
    match st.bulkResp logs with
    | .ok status body =>
        if status = 200 then
          match body with
          | some statuses =>
              let indexed := statuses.countP fun s => decide (s = 200) || decide (s = 201)
              { indexed := indexed, errors := statuses.length - indexed }
          | none => { indexed := 0, errors := logs.length }
        else { indexed := 0, errors := logs.length }
    | .exn _ => { indexed := 0, errors := logs.length }

/-- Outcome of `get_log_statistics`: the parsed aggregations, or the
`{'error': ...}` dict (which carries no `pods` key). -/
inductive StatsOutcome where
  | ok (d : StatsData)
  | err (e : String)
deriving DecidableEq

/-- The aggregation query body built by `get_log_statistics`: `match_all`
unless (truthy) filters are present. -/
def buildStatsQuery (filters : Option StatsFilters) : ESStatsQuery :=
  match filters with
  | none => { must := [] }
  | some f =>
      { must :=
          ([("application", f.application), ("cluster", f.cluster),
            ("bundle", f.bundle)].filterMap fun fv =>
            if optTruthy fv.2 then some (fv.1, fv.2.getD "") else none) }

/-- `ElasticsearchService.get_log_statistics`: one `_search` POST with
aggregations; non-200 and raised exceptions both collapse into an error
dict inside the method. -/
def get_log_statistics (st : StoreBehavior) (filters : Option StatsFilters) :
    StatsOutcome :=
  match st.statsResp (buildStatsQuery filters) with
  | .ok status body =>
      if status = 200 then
        match body with
        | some d => .ok d
        | none => .err "KeyError: aggregations"
      else .err ("HTTP " ++ toString status)
  | .exn e => .err e

/-! ### `app/views.py` — filter normalisation and cache keys -/

/-- Characters the sanitiser keeps: the class `[a-zA-Z0-9_\-]` of
`sanitize_filename`'s regular expression. -/
def isSafeChar (c : Char) : Bool :=
  ('a' ≤ c && c ≤ 'z') || ('A' ≤ c && c ≤ 'Z') || ('0' ≤ c && c ≤ '9')
    || c = '_' || c = '-'

/-- `sanitize_filename`: falsy input becomes `"unknown"`, every character
outside `[a-zA-Z0-9_\-]` is replaced by `'_'`. -/
def sanitize_filename (value : String) : String :=
  if value.isEmpty then "unknown"
  else ⟨value.data.map fun c => if isSafeChar c then c else '_'⟩

/-- The static cluster table of `map_frontend_to_elasticsearch_values`. -/
def cluster_mapping (c : String) : Option String :=
  if c = "cluster1" then some "Cluster Prod AKS 1"
  else if c = "cluster2" then some "Cluster Prod AKS 2"
  else if c = "cluster3" then some "Cluster Prod AKS 3"
  else if c = "cluster4" then some "Cluster Prod AKS 4"
  else none

/-- The static bundle table of `map_frontend_to_elasticsearch_values`
(keyed by the lower-cased bundle). -/
def bundle_mapping (b : String) : Option String :=
  if b = "bulkdeviceenrollment" then some "Bulkdeviceenrollment"
  else if b = "bulkordervalidation" then some "Bulkordervalidation"
  else if b = "iotsubscription" then some "IOTSubscription"
  else if b = "mobilitysubscription" then some "MobilitySubscription"
  else if b = "mobilitypromotiontreatmentrules" then some "MobilityPromotionTreatmentRules"
  else if b = "mobilitydevicetreatmentrules" then some "MobilityDeviceTreatmentRules"
  else if b = "businessrules" then some "BusinessRules"
  else if b = "customermanagement" then some "CustomerManagement"
  else if b = "inventorytracking" then some "InventoryTracking"
  else if b = "devicemanagement" then some "DeviceManagement"
  else if b = "networkmonitoring" then some "NetworkMonitoring"
  else none

/-- `map_frontend_to_elasticsearch_values`: cluster via the table,
bundle via the table keyed on its lower-casing, pod lower-cased,
unknown values passing through unchanged. -/
def map_frontend_to_elasticsearch_values
    (app cluster bundle : String) (pod : Option String) :
    String × String × String × Option String :=
  (app, (cluster_mapping cluster).getD cluster,
   (bundle_mapping (pyLower bundle)).getD bundle, pod.map pyLower)

/-- The cache key built by `get_pods` for a filter triple. -/
def pods_cache_key (app cluster bundle : String) : String :=
  "pods_" ++ sanitize_filename app ++ "_" ++ sanitize_filename cluster
    ++ "_" ++ sanitize_filename bundle

/-- The cache key built by `get_pod_logs` for a filter quadruple. -/
def pod_logs_cache_key (app cluster bundle pod : String) : String :=
  "pod_logs_" ++ sanitize_filename app ++ "_" ++ sanitize_filename cluster
    ++ "_" ++ sanitize_filename bundle ++ "_" ++ sanitize_filename pod

/-! ### `app/views.py` — formatting and pod discovery -/

/-- Python `'\n'.join` over strings. -/
def joinLinesStr (ls : List String) : String := ⟨joinNL (ls.map String.data)⟩

/-- `format_elasticsearch_logs`: provenance header plus one rendered line
per document that has a truthy timestamp, level and message. -/
def format_elasticsearch_logs (st : StoreBehavior) (logs : List LogEntry)
    (now : Nat) : String :=
  if logs.isEmpty then "No logs found in Elasticsearch"
  else
    let sourceType :=
      if st.baseUrlIsCloud then "☁️ Cloud Elasticsearch" else "🏠 Local Elasticsearch"
    let header :=
      ["# ====================================",
       "# Source: elasticsearch",
       "# Type: " ++ sourceType,
       "# Total logs: " ++ toString logs.length,
       "# Retrieved: " ++ toString now]
      ++ (if st.baseUrlIsCloud then ["# Endpoint: Elastic Cloud"] else [])
      ++ ["# ====================================", ""]
    let body := logs.filterMap fun log =>
      if !(toString log.timestamp).isEmpty && !log.log_level.isEmpty
          && !log.log_message.isEmpty then
        some ("[" ++ toString log.timestamp ++ "] " ++ log.log_level ++ ": "
          ++ log.log_message
          ++ (if !log.pod.isEmpty then " [pod: " ++ log.pod ++ "]" else ""))
      else none
    joinLinesStr (header ++ body)

/-- `generate_sample_pods`: six demo pods derived from the sanitised
application and bundle names. -/
def generate_sample_pods (app bundle : String) : List PodInfo :=
  let base :=
    [sanitize_filename app ++ "-" ++ sanitize_filename bundle ++ "-web-001",
     sanitize_filename app ++ "-" ++ sanitize_filename bundle ++ "-web-002",
     sanitize_filename app ++ "-" ++ sanitize_filename bundle ++ "-api-001",
     sanitize_filename app ++ "-" ++ sanitize_filename bundle ++ "-worker-001",
     sanitize_filename app ++ "-" ++ sanitize_filename bundle ++ "-error-pod",
     sanitize_filename app ++ "-" ++ sanitize_filename bundle ++ "-warn-service"]
  base.map fun pod =>
    { name := pod,
      display_name :=
        pyReplace (pyReplace (pyReplace pod "_" "-") "-error-pod" " (Error Demo)")
          "-warn-service" " (Warning Demo)" }

/-- `get_pods_from_config`: reads the nested pods-config file when it
exists; a missing file yields no pods and no file access. -/
def get_pods_from_config (w : World) (app cluster bundle : String) :
    List PodInfo × List Effect :=
  match w.podsConfigFile with
  | some cfg => (cfg app cluster bundle, [Effect.fileRead "pods_config.json"])
  | none => ([], [])

/-- The mapped statistics filters `get_pods_from_elasticsearch` sends. -/
def pods_stats_filters (app cluster bundle : String) : StatsFilters :=
  let m := map_frontend_to_elasticsearch_values app cluster bundle none
  { application := some m.1, cluster := some m.2.1, bundle := some m.2.2.1 }

/-- `get_pods_from_elasticsearch`: statistics query with the mapped filter
values; on success each pod bucket becomes a `PodInfo` with a humanised
display name, on failure the empty list. -/
def get_pods_from_elasticsearch (st : StoreBehavior) (app cluster bundle : String) :
    List PodInfo × List Effect :=
  let filters := pods_stats_filters app cluster bundle
  match get_log_statistics st (some filters) with
  | .ok d =>
      (d.pods.map fun pc =>
        { name := pc.1,
          display_name :=
            pyTitle (pyReplace pc.1 "-" " ") ++ " (" ++ toString pc.2 ++ " logs)" },
       [Effect.storeStats filters])
  | .err _ => ([], [Effect.storeStats filters])

/-- The POST parameters of a `get_pods` request (absent keys are `none`). -/
structure PodsRequest where
  application : Option String := none
  cluster : Option String := none
  bundle : Option String := none

/-- The JSON response of `get_pods`. -/
structure PodsResponse where
  status : Nat
  error : Option String
  pods : List PodInfo
deriving DecidableEq

/-- `get_pods`: validation, cache probe, store-statistics tier, config-file
tier, sample-generation tier, cache write. -/
def get_pods (st : StoreBehavior) (w : World) (req : PodsRequest) :
    PodsResponse × List Effect :=
  let app := pyStrip (req.application.getD "")
  let cluster := pyStrip (req.cluster.getD "")
  let bundle := pyStrip (req.bundle.getD "")
  if app.isEmpty || cluster.isEmpty || bundle.isEmpty then
    ({ status := 400, error := some "Missing required parameters", pods := [] }, [])
  else
    let key := pods_cache_key app cluster bundle
    let cached := (w.podsCache key).getD []
    if !cached.isEmpty then
      ({ status := 200, error := none, pods := cached }, [Effect.cacheReadPods key])
    else
      let es := get_pods_from_elasticsearch st app cluster bundle
      let chosen : List PodInfo × List Effect :=
        if !es.1.isEmpty then (es.1, [])
        else
          let cfg := get_pods_from_config w app cluster bundle
          if !cfg.1.isEmpty then (cfg.1, cfg.2)
          else (generate_sample_pods app bundle, cfg.2)
      ({ status := 200, error := none, pods := chosen.1 },
       Effect.cacheReadPods key :: es.2 ++ chosen.2
         ++ [Effect.cacheWritePods key chosen.1])

/-! ### `app/views.py` — pod-log resolution -/

/-- One line of an auto-generated log: instant, level tag, message
(the source writes it as `"[<time>] <level>: <message>"`). -/
structure LogLine where
  time : Nat
  level : String
  message : String
deriving DecidableEq

/-- Renders one generated line exactly in the source's line shape. -/
def renderLine (l : LogLine) : String :=
  "[" ++ toString l.time ++ "] " ++ l.level ++ ": " ++ l.message

/-- `auto_generate_pod_logs`: a fixed startup sequence then a branch
selected by the pod name — names containing `"error"` escalate
WARN → ERROR → FATAL, names containing `"warn"` repeat WARN, all other
names stay at INFO.  (`base_time = now - 1h30m`.) -/
def auto_generate_pod_logs (app cluster bundle pod : String) (now : Nat) :
    List LogLine :=
  let base := now - 5400
  let startup : List LogLine :=
    [⟨base, "INFO", "Starting pod " ++ pod⟩,
     ⟨base + 1, "INFO", "Application: " ++ app⟩,
     ⟨base + 2, "INFO", "Cluster: " ++ cluster⟩,
     ⟨base + 3, "INFO", "Bundle: " ++ bundle⟩]
  let cur := base + 20
  let rest : List LogLine :=
    if pyIn "error" (pyLower pod) then
      [⟨cur, "INFO", "Processing incoming requests..."⟩,
       ⟨cur + 30, "WARN", "High memory usage detected: 85%"⟩,
       ⟨cur + 60, "ERROR", "Database connection timeout after 30s"⟩,
       ⟨cur + 90, "ERROR", "Failed to process request: connection refused"⟩,
       ⟨cur + 120, "FATAL", "Critical error - service unavailable"⟩]
    else if pyIn "warn" (pyLower pod) then
      [⟨cur, "INFO", "Service operational - processing requests"⟩,
       ⟨cur + 45, "WARN", "High CPU usage detected: 78%"⟩,
       ⟨cur + 90, "WARN", "Response time degradation: 2.8s (SLA: 1s)"⟩,
       ⟨cur + 135, "WARN", "Queue backlog growing: 150 pending items"⟩]
    else
      [⟨cur, "INFO", "Service running normally"⟩,
       ⟨cur + 60, "INFO", "Processed 250 requests in last minute"⟩,
       ⟨cur + 120, "INFO", "Health check passed - all systems green"⟩,
       ⟨cur + 180, "INFO", "Database queries avg response: 45ms"⟩]
  startup ++ rest

/-- The string `auto_generate_pod_logs` actually returns:
its lines joined with `'\n'`. -/
def auto_generate_pod_logs_text (app cluster bundle pod : String) (now : Nat) :
    String :=
  joinLinesStr ((auto_generate_pod_logs app cluster bundle pod now).map renderLine)

/-- The log document `index_generated_logs_to_elasticsearch` builds from
one content line. -/
def genLineEntry (line : String) (app cluster bundle : String) (now : Nat) :
    LogEntry :=
  { timestamp := now, application := app, cluster := cluster, bundle := bundle,
    pod := app ++ "-" ++ bundle ++ "-pod", log_level := "INFO",
    log_message := line, source_file := "auto-generated" }

/-- `index_generated_logs_to_elasticsearch`: strips the content, splits it
into lines, keeps every non-blank line that does not start with `'#'`,
and bulk-indexes the resulting documents (no call when none remain). -/
def index_generated_logs_to_elasticsearch (st : StoreBehavior)
    (log_content : String) (app cluster bundle : String) (now : Nat) :
    BulkResult × List Effect :=
  let lines := splitNL (pyStripL log_content.data)
  let entries := lines.filterMap fun line =>
    if !(pyStripL line).isEmpty && !startsW ['#'] line then
      some (genLineEntry ⟨line⟩ app cluster bundle now)
    else none
  if entries.isEmpty then ({ indexed := 0, errors := 0 }, [])
  else (bulk_index_logs st entries, [Effect.storeBulk entries.length])

/-- `get_pod_logs_from_files` is a placeholder in the source: it always
returns `(None, None)` and touches nothing. -/
def get_pod_logs_from_files (_app _cluster _bundle _pod : String) :
    Option String × Option String :=
  (none, none)

/-- The query `get_pod_logs_from_elasticsearch` sends: the mapped filter
values, page size 1000. -/
def pod_logs_query_params (app cluster bundle pod : String) : QueryParams :=
  let m := map_frontend_to_elasticsearch_values app cluster bundle (some pod)
  { application := some m.1, cluster := some m.2.1, bundle := some m.2.2.1,
    pod := m.2.2.2, size := some 1000, page := some 1 }

/-- The analogous query over the original (unmapped) filter values.  The
source never sends it from the pod-logs path; it only appears in the
premise of the zero-match property. -/
def pod_logs_query_params_original (app cluster bundle pod : String) : QueryParams :=
  { application := some app, cluster := some cluster, bundle := some bundle,
    pod := some pod, size := some 1000, page := some 1 }

/-- `get_pod_logs_from_elasticsearch`: one search with the mapped values;
a non-empty hit list is formatted, anything else yields `None`. -/
def get_pod_logs_from_elasticsearch (st : StoreBehavior)
    (app cluster bundle pod : String) (now : Nat) :
    Option String × List Effect :=
  let params := pod_logs_query_params app cluster bundle pod
  let result := search_logs st params
  (if !result.logs.isEmpty then some (format_elasticsearch_logs st result.logs now)
   else none,
   [Effect.storeSearch params])

/-- The tier walk inside `get_pod_logs` after a cache miss: search store,
then files (a dead placeholder), then on-the-fly generation plus one
best-effort bulk-index of the generated text.  Returns the content, the
`found_log_source` tag, and the effects. -/
def get_pod_logs_resolve (st : StoreBehavior) (w : World)
    (app cluster bundle pod : String) : String × String × List Effect :=
  let es := get_pod_logs_from_elasticsearch st app cluster bundle pod w.now
  match es.1 with
  | some content => (content, "elasticsearch", es.2)
  | none =>
      let fileRes := get_pod_logs_from_files app cluster bundle pod
      if !(fileRes.1.getD "").isEmpty then
        (fileRes.1.getD "", fileRes.2.getD "", es.2)
      else
        let content := auto_generate_pod_logs_text app cluster bundle pod w.now
        let idx := index_generated_logs_to_elasticsearch st content app cluster
          bundle w.now
        (content, "auto-generated", es.2 ++ idx.2)

/-- The metadata header `get_pod_logs` prepends before caching/returning. -/
def pod_logs_metadata (now : Nat) (src pod app cluster bundle : String) : String :=
  "# LogOps - Enhanced Log Viewer\n# Loaded: " ++ toString now
    ++ "\n# Source: " ++ src ++ "\n# Pod: " ++ pod
    ++ "\n# Application: " ++ app ++ "\n# Cluster: " ++ cluster
    ++ "\n# Bundle: " ++ bundle
    ++ "\n# ====================================\n\n"

/-- The POST parameters of a `get_pod_logs` request. -/
structure PodLogsRequest where
  application : Option String := none
  cluster : Option String := none
  bundle : Option String := none
  pod : Option String := none

/-- The JSON response of `get_pod_logs`. -/
structure PodLogsResponse where
  status : Nat
  error : Option String
  logs : String
deriving DecidableEq

/-- `get_pod_logs`: validation, cache probe, the tier walk of
`get_pod_logs_resolve`, metadata prefix, 30-second cache write. -/
def get_pod_logs (st : StoreBehavior) (w : World) (req : PodLogsRequest) :
    PodLogsResponse × List Effect :=
  let app := pyStrip (req.application.getD "")
  let cluster := pyStrip (req.cluster.getD "")
  let bundle := pyStrip (req.bundle.getD "")
  let pod := pyStrip (req.pod.getD "")
  if app.isEmpty || cluster.isEmpty || bundle.isEmpty || pod.isEmpty then
    ({ status := 400, error := some "Missing required parameters", logs := "" }, [])
  else
    let key := pod_logs_cache_key app cluster bundle pod
    let cached := (w.podLogsCache key).getD ""
    if !cached.isEmpty then
      ({ status := 200, error := none, logs := cached }, [Effect.cacheReadLogs key])
    else
      let r := get_pod_logs_resolve st w app cluster bundle pod
      let final := pod_logs_metadata w.now r.2.1 pod app cluster bundle ++ r.1
      ({ status := 200, error := none, logs := final },
       Effect.cacheReadLogs key :: r.2.2 ++ [Effect.cacheWriteLogs key final])

/-- The spec's provenance vocabulary (`search-engine` / `file` /
`synthetic`).  Modelled from the spec: the source tags payloads with the
literal strings `"elasticsearch"`, `"file"` and `"auto-generated"`; this
classifier maps those tags onto the spec's enumeration. -/
inductive SourceKind where
  | searchEngine
  | file
  | synthetic
deriving DecidableEq

/-- Classifies a source tag string into the spec's provenance enumeration. -/
def sourceKindOf (tag : String) : Option SourceKind :=
  if tag = "elasticsearch" then some SourceKind.searchEngine
  else if tag = "file" then some SourceKind.file
  else if tag = "auto-generated" then some SourceKind.synthetic
  else none

/-! ### `app/views.py` — sample-data generation (`generate_specific_sample_logs`) -/

/-- The random source: an explicit stream of naturals; an exhausted
stream draws zeros. -/
abbrev RS := List Nat

/-- Consumes one raw draw. -/
def rsNext (s : RS) : Nat × RS := (s.headD 0, s.tail)

/-- `random.randint(lo, hi)`: one draw folded into `[lo, hi]`. -/
def pyRandint (lo hi : Nat) (s : RS) : Nat × RS :=
  let n := rsNext s
  (lo + n.1 % (hi + 1 - lo), n.2)

/-- A percentage draw in `[0, 100)`, modelling both `random.random()`
threshold tests (scaled by 100) and the cumulative-weight pick of
`random.choices(..., weights=[70, 20, 10])`. -/
def pyRandPct (s : RS) : Nat × RS :=
  let n := rsNext s
  (n.1 % 100, n.2)

/-- `random.choice(l)` over a non-empty list. -/
def pyChoice {α : Type} (l : List α) (d : α) (s : RS) : α × RS :=
  let n := rsNext s
  (l.getD (n.1 % l.length) d, n.2)

/-- The per-pod inner loop of `generate_specific_sample_logs`: for each of
`count` entries, a minute draw in `[0, 120]`, a second draw in `[0, 59]`,
the 70/20/10 level pick, a message pick from the level's catalogue, and
two optional metric draws. -/
def gen_pod_logs (app cluster bundle podName : String)
    (infoM warnM errM : List String) (base : Nat) :
    Nat → RS → List LogEntry × RS
  | 0, s => ([], s)
  | n + 1, s =>
    let d1 := pyRandint 0 120 s
    let d2 := pyRandint 0 59 d1.2
    let d3 := pyRandPct d2.2
    let level := if d3.1 < 70 then "INFO" else if d3.1 < 90 then "WARN" else "ERROR"
    let msgs := if d3.1 < 70 then infoM else if d3.1 < 90 then warnM else errM
    let d4 := pyChoice msgs "" d3.2
    let d5 := pyRandPct d4.2
    let rt : Option Nat × RS :=
      if d5.1 < 30 then
        let u := pyRandint 100 2000 d5.2
        (some u.1, u.2)
      else (none, d5.2)
    let d6 := pyRandPct rt.2
    let sc : Option Nat × RS :=
      if d6.1 < 20 then
        let c := pyChoice [200, 201, 400, 401, 404, 500] 200 d6.2
        (some c.1, c.2)
      else (none, d6.2)
    let entry : LogEntry :=
      { timestamp := base + 60 * d1.1 + d2.1, application := app,
        cluster := cluster, bundle := bundle, pod := podName,
        log_level := level, log_message := d4.1,
        source_file := "elasticsearch", response_time := rt.1,
        status_code := sc.1 }
    let rest := gen_pod_logs app cluster bundle podName infoM warnM errM base n sc.2
    (entry :: rest.1, rest.2)

/-- The outer pod loop of `generate_specific_sample_logs`: for each pod
number, a log count drawn from `[20, 30]` and that many entries. -/
def gen_pods_loop (app cluster bundle : String)
    (infoM warnM errM : List String) (base : Nat) :
    List Nat → RS → List LogEntry × RS
  | [], s => ([], s)
  | n :: ns, s =>
    let podName := pyLower app ++ "-" ++ pyLower bundle ++ "-web-" ++ pad3 n
    let cnt := pyRandint 20 30 s
    let logs := gen_pod_logs app cluster bundle podName infoM warnM errM base
      cnt.1 cnt.2
    let rest := gen_pods_loop app cluster bundle infoM warnM errM base ns logs.2
    (logs.1 ++ rest.1, rest.2)

/-- `generate_specific_sample_logs`: builds the message catalogue (whose
f-strings each consume one draw at dict-construction time, in source
order; `random.uniform(1.5, 3.0)` is drawn in tenths), sets
`base_time = now - 2h`, and generates three pods of 20–30 entries. -/
def generate_specific_sample_logs (app cluster bundle : String) (now : Nat)
    (s : RS) : List LogEntry :=
  let r1 := pyRandint 50 200 s
  let r2 := pyRandint 1000 9999 r1.2
  let infoM : List String :=
    ["Service started successfully", "Processing request completed",
     "Health check passed", "Database connection established",
     "User authenticated successfully",
     "Request processed in " ++ toString r1.1 ++ "ms",
     "Cache hit for key: user_" ++ toString r2.1,
     "Background job completed", "Configuration loaded successfully",
     "Transaction completed successfully"]
  let r3 := pyRandint 75 90 r2.2
  let r4 := pyRandint 15 30 r3.2
  let r5 := pyRandint 50 200 r4.2
  let r6 := pyRandint 80 95 r5.2
  let r7 := pyRandint 25 45 r6.2
  let r8 := pyRandint 1000 3000 r7.2
  let warnM : List String :=
    ["High memory usage detected: " ++ toString r3.1 ++ "%",
     "Response time degradation: " ++ toString (r4.1 / 10) ++ "."
       ++ toString (r4.1 % 10) ++ "s",
     "Queue backlog growing: " ++ toString r5.1 ++ " pending items",
     "Connection pool near capacity: " ++ toString r6.1 ++ "%",
     "Cache miss ratio high: " ++ toString r7.1 ++ "%",
     "Slow query detected: " ++ toString r8.1 ++ "ms"]
  let r9 := pyRandint 30 60 r8.2
  let errM : List String :=
    ["Database connection timeout after " ++ toString r9.1 ++ "s",
     "Failed to process request: connection refused",
     "Authentication failed: invalid credentials",
     "OutOfMemoryError: Java heap space",
     "Network timeout: connection reset by peer",
     "Service temporarily unavailable", "Invalid request format"]
  let base := now - 7200
  (gen_pods_loop app cluster bundle infoM warnM errM base [1, 2, 3] r9.2).1

/-! ### `app/views.py` — analysis engine -/

/-- Python `str.startswith`. -/
def pyStartsWith (s pat : String) : Bool := startsW pat.data s.data

/-- The remote-model configuration visible to the analysis views
(`TOGETHER_API_KEY` may be unset). -/
structure AnalysisConfig where
  togetherApiKey : Option String

/-- The remote model's behaviour: for each (possibly truncated) user
content, either a response status with the extracted first-choice content
(empty when absent) or a raised exception (timeouts included). -/
structure RemoteOracle where
  summaryResp : String → HttpOutcome String
  analysisResp : String → HttpOutcome String

/-- The truncation both remote calls apply: texts beyond 8000 characters
are cut and marked. -/
def truncateForAnalysis (text : String) : String :=
  if text.length > 8000 then text.take 8000 ++ "\n... (truncated for analysis)"
  else text

/-- `get_together_ai_summary`: remote call on the truncated text; a 200
with non-empty content is branded and returned, every other outcome
becomes a `"❌ ..."` string (the distinct timeout/error/empty messages all
share that marker, which is all the caller inspects). -/
def get_together_ai_summary (oracle : RemoteOracle) (text : String) (now : Nat) :
    String :=
  match oracle.summaryResp (truncateForAnalysis text) with
  | .ok 200 content =>
      if !content.isEmpty then
        "🤖 **Together.ai Analysis** (Llama-3-8b)\n\n" ++ pyStrip content
          ++ "\n\n📊 **Analysis Metadata:**\n• Model: meta-llama/Llama-3-8b-chat-hf\n• Service: Together.ai Cloud AI\n• Generated: "
          ++ toString now
      else "❌ Received empty response from Together.ai"
  | .ok status _ => "❌ Together.ai API error " ++ toString status ++ ": "
  | .exn e => "❌ Together.ai error: " ++ e

/-- `get_together_ai_analysis`: same shape as the summary call with the
root-cause prompt and branding. -/
def get_together_ai_analysis (oracle : RemoteOracle) (text : String) (now : Nat) :
    String :=
  match oracle.analysisResp (truncateForAnalysis text) with
  | .ok 200 content =>
      if !content.isEmpty then
        "🔬 **Together.ai Root Cause Analysis** (Llama-3-8b)\n\n" ++ pyStrip content
          ++ "\n\n📊 **Analysis Metadata:**\n• Model: meta-llama/Llama-3-8b-chat-hf\n• Service: Together.ai Cloud AI\n• Analysis Method: Large Language Model\n• Generated: "
          ++ toString now
      else "❌ Received empty response from Together.ai"
  | .ok status _ => "❌ Together.ai API error " ++ toString status ++ ": "
  | .exn e => "❌ Together.ai error: " ++ e

/-- The lines of a text, as `log_text.split('\n')` produces them. -/
def linesOf (t : String) : List (List Char) := splitNL t.data

/-- The number of lines of `t` containing `pat` — the level counters of
`generate_local_summary` / `generate_local_rca`. -/
def countContaining (pat : String) (t : String) : Nat :=
  (linesOf t).countP fun l => isSubL pat.data l

/-- `generate_local_summary`: level counts, the status verdict
(errors > warnings > healthy), recommendations, footer. -/
def generate_local_summary (log_text : String) (now : Nat) : String :=
  let info_count := countContaining "INFO" log_text
  let warn_count := countContaining "WARN" log_text
  let error_count := countContaining "ERROR" log_text
  let total := (linesOf log_text).countP fun l => !(pyStripL l).isEmpty
  "📊 **Local Log Analysis Engine**\n\n**Log Summary:**\n• Total log entries: "
    ++ toString total ++ "\n• INFO messages: " ++ toString info_count
    ++ "\n• WARN messages: " ++ toString warn_count
    ++ "\n• ERROR messages: " ++ toString error_count ++ "\n\n"
    ++ (if 0 < error_count then
          "**Status: ⚠️ ERRORS DETECTED**\n• " ++ toString error_count
            ++ " error(s) found requiring attention\n"
        else if 0 < warn_count then
          "**Status: ⚡ WARNINGS PRESENT**\n• " ++ toString warn_count
            ++ " warning(s) detected\n"
        else "**Status: ✅ HEALTHY**\n• No errors or warnings detected\n")
    ++ "\n**Recommendations:**\n"
    ++ (if 0 < error_count then "• Immediate investigation required for errors\n" else "")
    ++ (if 0 < warn_count then "• Monitor warnings for potential issues\n" else "")
    ++ "• Continue monitoring system health\n"
    ++ "\n📈 **Analysis Engine:** LogOps Pattern Analyzer\n🕒 **Generated:** "
    ++ toString now

/-- The health verdict of the local summary, exactly the branching of
`generate_local_summary`'s status section. -/
inductive SummaryStatus where
  | errorsDetected
  | warningsPresent
  | healthy
deriving DecidableEq

/-- Classifies a text the way `generate_local_summary` picks its status
line: any ERROR line wins, else any WARN line, else healthy. -/
def localSummaryStatus (log_text : String) : SummaryStatus :=
  if 0 < countContaining "ERROR" log_text then SummaryStatus.errorsDetected
  else if 0 < countContaining "WARN" log_text then SummaryStatus.warningsPresent
  else SummaryStatus.healthy

/-- Renders the first three matched lines of `generate_local_rca`,
numbered from one. -/
def rcaTopLines (ls : List (List Char)) : String :=
  String.join ((ls.take 3).enum.map fun ie =>
    toString (ie.1 + 1) ++ ". " ++ (⟨pyStripL ie.2⟩ : String) ++ "\n")

/-- `generate_local_rca`: errors first (with keyword root-cause hints and
a fixed action list), else warnings, else the healthy report. -/
def generate_local_rca (log_text : String) (now : Nat) : String :=
  let errors := (linesOf log_text).filter fun l => isSubL "ERROR".data l
  let warnings := (linesOf log_text).filter fun l => isSubL "WARN".data l
  "🔍 **Local Root Cause Analysis Engine**\n\n"
    ++ (if !errors.isEmpty then
          "**🚨 Critical Issues Found (" ++ toString errors.length ++ "):**\n"
            ++ rcaTopLines errors
            ++ (if 3 < errors.length then
                  "... and " ++ toString (errors.length - 3) ++ " more errors\n"
                else "")
            ++ "\n**Root Cause Assessment:**\n"
            ++ (if pyIn "timeout" (pyLower log_text) then
                  "• Connection timeouts detected - network or database issues\n"
                else "")
            ++ (if pyIn "memory" (pyLower log_text) then
                  "• Memory-related issues detected - potential resource constraints\n"
                else "")
            ++ (if pyIn "connection" (pyLower log_text) then
                  "• Connection issues detected - service availability problems\n"
                else "")
            ++ "\n**Immediate Actions:**\n1. Check service health and connectivity\n2. Review system resources (CPU, memory, disk)\n3. Verify database and network connectivity\n4. Check for recent deployments or configuration changes\n"
        else if !warnings.isEmpty then
          "**⚠️ Warning Conditions (" ++ toString warnings.length ++ "):**\n"
            ++ rcaTopLines warnings
            ++ (if 3 < warnings.length then
                  "... and " ++ toString (warnings.length - 3) ++ " more warnings\n"
                else "")
            ++ "\n**Preventive Actions:**\n1. Monitor system metrics closely\n2. Consider scaling resources if needed\n3. Review performance thresholds\n"
        else
          "**✅ System Operating Normally**\n• No critical errors detected\n• System appears healthy\n\n**Optimization Opportunities:**\n1. Continue monitoring for trends\n2. Review performance metrics\n3. Consider proactive maintenance\n")
    ++ "\n🔧 **Analysis Method:** Pattern Recognition & Keyword Analysis\n🕒 **Generated:** "
    ++ toString now

/-- The POST parameters of the two analysis endpoints. -/
structure AnalysisPost where
  log_text : Option String := none
  use_together : Option String := none

/-- The JSON response of the analysis endpoints: the body text, and the
`ai_service` / `model` keys when present. -/
structure AnalysisResponse where
  body : String
  ai_service : Option String
  model : Option String
deriving DecidableEq

/-- `summarize_logs`: sentinel/empty rejection, then the remote-first
local-fallback chain gated by the configured key and the opt-out flag. -/
def summarize_logs (cfg : AnalysisConfig) (oracle : RemoteOracle)
    (req : AnalysisPost) (now : Nat) : AnalysisResponse × List Effect :=
  let log_text := pyStrip (req.log_text.getD "")
  let use_together := pyLower (req.use_together.getD "true") = "true"
  if log_text.isEmpty || log_text = "Waiting for execution..."
      || log_text = "Fetching pod logs..." then
    ({ body := "❌ No logs available to summarize.", ai_service := none,
       model := none }, [])
  else if cfg.togetherApiKey.isSome && use_together then
    let ts := get_together_ai_summary oracle log_text now
    if !ts.isEmpty && !pyStartsWith ts "❌" then
      ({ body := ts, ai_service := some "together_ai",
         model := some "meta-llama/Llama-3-8b-chat-hf" }, [Effect.remoteModel])
    else
      ({ body := generate_local_summary log_text now,
         ai_service := some "local_ai",
         model := some "LogOps Pattern Analysis Engine" },
       [Effect.remoteModel, Effect.localAnalysis])
  else
    ({ body := generate_local_summary log_text now,
       ai_service := some "local_ai",
       model := some "LogOps Pattern Analysis Engine" }, [Effect.localAnalysis])

/-- `analyze_logs`: the root-cause twin of `summarize_logs`. -/
def analyze_logs (cfg : AnalysisConfig) (oracle : RemoteOracle)
    (req : AnalysisPost) (now : Nat) : AnalysisResponse × List Effect :=
  let log_text := pyStrip (req.log_text.getD "")
  let use_together := pyLower (req.use_together.getD "true") = "true"
  if log_text.isEmpty || log_text = "Waiting for execution..."
      || log_text = "Fetching pod logs..." then
    ({ body := "❌ No logs available for root cause analysis.",
       ai_service := none, model := none }, [])
  else if cfg.togetherApiKey.isSome && use_together then
    let ta := get_together_ai_analysis oracle log_text now
    if !ta.isEmpty && !pyStartsWith ta "❌" then
      ({ body := ta, ai_service := some "together_ai",
         model := some "meta-llama/Llama-3-8b-chat-hf" }, [Effect.remoteModel])
    else
      ({ body := generate_local_rca log_text now,
         ai_service := some "local_ai", model := some "LogOps RCA Engine" },
       [Effect.remoteModel, Effect.localAnalysis])
  else
    ({ body := generate_local_rca log_text now,
       ai_service := some "local_ai", model := some "LogOps RCA Engine" },
     [Effect.localAnalysis])

/-! ### Concrete fixtures used to instantiate the properties -/

/-- A store whose every HTTP call raises (connection refused). -/
def stubStore : StoreBehavior :=
  { healthProbe := fun _ => .exn "ConnectionError",
    searchResp := fun _ => .exn "ConnectionError",
    statsResp := fun _ => .exn "ConnectionError",
    bulkResp := fun _ => .exn "ConnectionError",
    baseUrlIsCloud := false }

/-- A healthy store whose search raises. -/
def stExn : StoreBehavior :=
  { healthProbe := fun _ => .ok 200 (),
    searchResp := fun _ => .exn "ConnectionError",
    statsResp := fun _ => .exn "ConnectionError",
    bulkResp := fun _ => .exn "ConnectionError",
    baseUrlIsCloud := false }

/-- A healthy store answering searches with HTTP 500. -/
def st500 : StoreBehavior :=
  { healthProbe := fun _ => .ok 200 (),
    searchResp := fun _ => .ok 500 none,
    statsResp := fun _ => .ok 500 none,
    bulkResp := fun _ => .ok 500 none,
    baseUrlIsCloud := false }

/-- A healthy store answering searches with an unparseable 200 body. -/
def stBad : StoreBehavior :=
  { healthProbe := fun _ => .ok 200 (),
    searchResp := fun _ => .ok 200 none,
    statsResp := fun _ => .ok 200 none,
    bulkResp := fun _ => .ok 200 none,
    baseUrlIsCloud := false }

/-- The statistics body of a store with no documents. -/
def emptyStats : StatsData :=
  { total_logs := 0, log_levels := [], applications := [], clusters := [],
    pods := [], bundles := [] }

/-- A healthy store with no documents at all. -/
def stEmptyStore : StoreBehavior :=
  { healthProbe := fun _ => .ok 200 (),
    searchResp := fun _ => .ok 200 (some { hits := [], total := 0 }),
    statsResp := fun _ => .ok 200 (some emptyStats),
    bulkResp := fun logs => .ok 200 (some (logs.map fun _ => 201)),
    baseUrlIsCloud := false }

/-- A remote model that is unreachable. -/
def stubOracle : RemoteOracle :=
  { summaryResp := fun _ => .exn "Timeout",
    analysisResp := fun _ => .exn "Timeout" }

/-- A world with nothing cached and no config file. -/
def emptyWorld : World :=
  { podsCache := fun _ => none, podLogsCache := fun _ => none,
    podsConfigFile := none, now := 10000 }

/-- A world holding one fresh pod-list entry and one fresh pod-log entry. -/
def cachedWorld : World :=
  { podsCache := fun k =>
      if k = pods_cache_key "FOBPM" "cluster1" "Bulkdeviceenrollment" then
        some [{ name := "cached-pod", display_name := "Cached Pod (3 logs)" }]
      else none,
    podLogsCache := fun k =>
      if k = pod_logs_cache_key "FOBPM" "cluster1" "Bulkdeviceenrollment" "pod-1" then
        some "previously cached pod logs"
      else none,
    podsConfigFile := none, now := 10000 }
/-! ### Lemmas about the string primitives -/

theorem lowerChar_idem (c : Char) : lowerChar (lowerChar c) = lowerChar c := by
  by_cases h1 : c = 'A'; · subst h1; decide
  by_cases h2 : c = 'B'; · subst h2; decide
  by_cases h3 : c = 'C'; · subst h3; decide
  by_cases h4 : c = 'D'; · subst h4; decide
  by_cases h5 : c = 'E'; · subst h5; decide
  by_cases h6 : c = 'F'; · subst h6; decide
  by_cases h7 : c = 'G'; · subst h7; decide
  by_cases h8 : c = 'H'; · subst h8; decide
  by_cases h9 : c = 'I'; · subst h9; decide
  by_cases h10 : c = 'J'; · subst h10; decide
  by_cases h11 : c = 'K'; · subst h11; decide
  by_cases h12 : c = 'L'; · subst h12; decide
  by_cases h13 : c = 'M'; · subst h13; decide
  by_cases h14 : c = 'N'; · subst h14; decide
  by_cases h15 : c = 'O'; · subst h15; decide
  by_cases h16 : c = 'P'; · subst h16; decide
  by_cases h17 : c = 'Q'; · subst h17; decide
  by_cases h18 : c = 'R'; · subst h18; decide
  by_cases h19 : c = 'S'; · subst h19; decide
  by_cases h20 : c = 'T'; · subst h20; decide
  by_cases h21 : c = 'U'; · subst h21; decide
  by_cases h22 : c = 'V'; · subst h22; decide
  by_cases h23 : c = 'W'; · subst h23; decide
  by_cases h24 : c = 'X'; · subst h24; decide
  by_cases h25 : c = 'Y'; · subst h25; decide
  by_cases h26 : c = 'Z'; · subst h26; decide
  have e : lowerChar c = c := by
    unfold lowerChar
    simp only [h1, h2, h3, h4, h5, h6, h7, h8, h9, h10, h11, h12, h13, h14, h15,
      h16, h17, h18, h19, h20, h21, h22, h23, h24, h25, h26, if_false]
  rw [e, e]

theorem pyLower_idem (s : String) : pyLower (pyLower s) = pyLower s := by
  cases s with
  | mk data =>
    simp only [pyLower, List.map_map]
    congr 1
    exact List.map_congr_left fun c _ => lowerChar_idem c

theorem splitNL_ne_nil (l : List Char) : splitNL l ≠ [] := by
  cases l with
  | nil => simp [splitNL]
  | cons c cs =>
    simp only [splitNL]
    split
    · simp
    · split <;> simp

theorem firstLine_cons {c : Char} (cs : List Char) (h : c ≠ '\n') :
    firstLine (c :: cs) = c :: firstLine cs := by
  simp only [firstLine, splitNL, if_neg h]
  cases hsp : splitNL cs with
  | nil => exact absurd hsp (splitNL_ne_nil cs)
  | cons l ls => simp

theorem firstLine_mem (l : List Char) : firstLine l ∈ splitNL l := by
  unfold firstLine
  cases hsp : splitNL l with
  | nil => exact absurd hsp (splitNL_ne_nil l)
  | cons x xs => simp

theorem splitNL_cons_of_ne {c : Char} {cs l : List Char} {ls : List (List Char)}
    (h : c ≠ '\n') (hsp : splitNL cs = l :: ls) :
    splitNL (c :: cs) = (c :: l) :: ls := by
  simp only [splitNL, if_neg h, hsp]

theorem startsW_isSubL {pat l : List Char} (h : startsW pat l = true) :
    isSubL pat l = true := by
  cases l with
  | nil => simpa [isSubL] using h
  | cons c cs => simp [isSubL, h]

theorem startsW_firstLine :
    ∀ (pat : List Char) (cs : List Char), (∀ c ∈ pat, c ≠ '\n') →
      startsW pat cs = true → startsW pat (firstLine cs) = true := by
  intro pat
  induction pat with
  | nil => intro cs _ _; simp [startsW]
  | cons a ps ih =>
    intro cs hnl hs
    cases cs with
    | nil => simp [startsW] at hs
    | cons c cs' =>
      simp only [startsW, Bool.and_eq_true, decide_eq_true_eq] at hs
      obtain ⟨hac, hrest⟩ := hs
      have hcnl : c ≠ '\n' := hac ▸ hnl a (by simp)
      rw [firstLine_cons cs' hcnl]
      simp only [startsW, Bool.and_eq_true, decide_eq_true_eq]
      exact ⟨hac, ih cs' (fun x hx => hnl x (by simp [hx])) hrest⟩

theorem isSubL_line :
    ∀ (cs pat : List Char), (∀ c ∈ pat, c ≠ '\n') →
      isSubL pat cs = true → ∃ l ∈ splitNL cs, isSubL pat l = true := by
  intro cs
  induction cs with
  | nil =>
    intro pat _ h
    exact ⟨[], by simp [splitNL], by simpa [isSubL] using h⟩
  | cons c cs' ih =>
    intro pat hnl h
    simp only [isSubL, Bool.or_eq_true] at h
    rcases h with h | h
    · exact ⟨firstLine (c :: cs'), firstLine_mem _,
        startsW_isSubL (startsW_firstLine pat (c :: cs') hnl h)⟩
    · obtain ⟨l, hmem, hsub⟩ := ih pat hnl h
      by_cases hc : c = '\n'
      · subst hc
        exact ⟨l, by simp [splitNL, hmem], hsub⟩
      · cases hsp : splitNL cs' with
        | nil => exact absurd hsp (splitNL_ne_nil cs')
        | cons l0 ls =>
          rw [hsp] at hmem
          rw [splitNL_cons_of_ne hc hsp]
          rcases List.mem_cons.mp hmem with rfl | hmem'
          · exact ⟨c :: l, by simp, by simp [isSubL, hsub]⟩
          · exact ⟨l, by simp [hmem'], hsub⟩

theorem rdropWhileP_cons_of_neg {p : Char → Bool} {c : Char} (cs : List Char)
    (h : p c = false) : rdropWhileP p (c :: cs) = c :: rdropWhileP p cs := by
  simp [rdropWhileP, h]

theorem pyStripL_cons_of_neg {c : Char} (cs : List Char) (h : isPySpace c = false) :
    pyStripL (c :: cs) = c :: rdropWhileP isPySpace cs := by
  simp only [pyStripL, List.dropWhile_cons, h, if_false]
  exact rdropWhileP_cons_of_neg cs h


/-! ### Helper lemmas about the embedded operations -/

theorem empty_isEmpty : ("" : String).isEmpty = true := rfl

theorem isEmpty_false_of_ne {s : String} (h : s ≠ "") : s.isEmpty = false := by
  cases hs : s.isEmpty
  · rfl
  · exact absurd ((String.isEmpty_iff s).mp hs) h

theorem string_data_eq_nil {s : String} (h : s.data = []) : s = "" := by
  cases s
  simp only at h
  simp [h]

theorem string_append_ne_empty_left {s t : String} (h : s ≠ "") : s ++ t ≠ "" := by
  intro he
  have hd := congrArg String.data he
  rw [String.data_append] at hd
  exact h (string_data_eq_nil (List.append_eq_nil.mp (by simpa using hd)).1)

set_option maxHeartbeats 1000000 in
theorem cluster_mapping_canon {x v : String} (h : cluster_mapping x = some v) :
    cluster_mapping v = none := by
  unfold cluster_mapping at h
  split at h; · injection h with h'; subst h'; decide
  split at h; · injection h with h'; subst h'; decide
  split at h; · injection h with h'; subst h'; decide
  split at h; · injection h with h'; subst h'; decide
  exact absurd h (by simp)

set_option maxHeartbeats 1000000 in
theorem bundle_mapping_canon {x v : String} (h : bundle_mapping x = some v) :
    bundle_mapping (pyLower v) = some v := by
  unfold bundle_mapping at h
  split at h; · injection h with h'; subst h'; decide
  split at h; · injection h with h'; subst h'; decide
  split at h; · injection h with h'; subst h'; decide
  split at h; · injection h with h'; subst h'; decide
  split at h; · injection h with h'; subst h'; decide
  split at h; · injection h with h'; subst h'; decide
  split at h; · injection h with h'; subst h'; decide
  split at h; · injection h with h'; subst h'; decide
  split at h; · injection h with h'; subst h'; decide
  split at h; · injection h with h'; subst h'; decide
  split at h; · injection h with h'; subst h'; decide
  exact absurd h (by simp)

theorem generate_sample_pods_ne_nil (app bundle : String) :
    generate_sample_pods app bundle ≠ [] := by
  simp [generate_sample_pods]

theorem pods_es_effects (st : StoreBehavior) (app cluster bundle : String) :
    (get_pods_from_elasticsearch st app cluster bundle).2
      = [Effect.storeStats (pods_stats_filters app cluster bundle)] := by
  simp only [get_pods_from_elasticsearch]
  cases get_log_statistics st (some (pods_stats_filters app cluster bundle)) <;> rfl

theorem cfg_effects (w : World) (app cluster bundle : String) :
    (get_pods_from_config w app cluster bundle).2 = []
      ∨ (get_pods_from_config w app cluster bundle).2
        = [Effect.fileRead "pods_config.json"] := by
  unfold get_pods_from_config
  cases w.podsConfigFile <;> simp

theorem pod_logs_metadata_ne_empty (now : Nat) (src pod app cluster bundle : String) :
    pod_logs_metadata now src pod app cluster bundle ≠ "" := by
  intro h
  have hd := congrArg String.data h
  simp only [pod_logs_metadata, String.data_append] at hd
  simp [List.append_eq_nil] at hd

theorem pod_es_logs_effects (st : StoreBehavior) (app cluster bundle pod : String)
    (now : Nat) :
    (get_pod_logs_from_elasticsearch st app cluster bundle pod now).2
      = [Effect.storeSearch (pod_logs_query_params app cluster bundle pod)] := rfl

theorem idx_effects (st : StoreBehavior) (content app cluster bundle : String)
    (now : Nat) :
    (index_generated_logs_to_elasticsearch st content app cluster bundle now).2 = []
      ∨ ∃ n, (index_generated_logs_to_elasticsearch st content app cluster bundle
          now).2 = [Effect.storeBulk n] := by
  simp only [index_generated_logs_to_elasticsearch]
  split
  · exact Or.inl rfl
  · exact Or.inr ⟨_, rfl⟩

theorem resolve_no_cache_write (st : StoreBehavior) (w : World)
    (app cluster bundle pod : String) (k v : String) :
    Effect.cacheWriteLogs k v
      ∉ (get_pod_logs_resolve st w app cluster bundle pod).2.2 := by
  intro hmem
  simp only [get_pod_logs_resolve] at hmem
  split at hmem
  · rw [pod_es_logs_effects] at hmem
    simp at hmem
  · split at hmem
    · rw [pod_es_logs_effects] at hmem
      simp at hmem
    · rcases idx_effects st (auto_generate_pod_logs_text app cluster bundle pod w.now)
        app cluster bundle w.now with hi | ⟨n, hi⟩ <;>
        simp [pod_es_logs_effects, hi] at hmem

theorem auto_text_head (app cluster bundle pod : String) (now : Nat) :
    ∃ rest, (auto_generate_pod_logs_text app cluster bundle pod now).data
      = '[' :: rest := by
  simp only [auto_generate_pod_logs_text, auto_generate_pod_logs, joinLinesStr,
    List.cons_append, List.map_cons, joinNL, renderLine, String.data_append,
    List.singleton_append, List.append_assoc]
  exact ⟨_, rfl⟩

theorem idx_bulk_of_bracket (st : StoreBehavior) (content app cluster bundle : String)
    (now : Nat) (xs : List Char) (hhead : content.data = '[' :: xs) :
    ∃ n, (index_generated_logs_to_elasticsearch st content app cluster bundle now).2
      = [Effect.storeBulk n] := by
  simp only [index_generated_logs_to_elasticsearch, hhead]
  rw [pyStripL_cons_of_neg xs (by decide)]
  cases hsp : splitNL (rdropWhileP isPySpace xs) with
  | nil => exact absurd hsp (splitNL_ne_nil _)
  | cons l ls =>
    rw [splitNL_cons_of_ne (by decide) hsp]
    have hcond : (!(pyStripL ('[' :: l)).isEmpty && !startsW ['#'] ('[' :: l)) = true := by
      rw [pyStripL_cons_of_neg l (by decide)]
      simp [startsW]
    rw [List.filterMap_cons, hcond]
    simp

theorem error_line_count {t : String} (h : pyIn "ERROR" t = true) :
    0 < countContaining "ERROR" t := by
  obtain ⟨l, hmem, hsub⟩ := isSubL_line t.data "ERROR".data (by decide) h
  exact List.countP_pos_iff.mpr ⟨l, hmem, hsub⟩

theorem sanitize_safe (v : String) (ch : Char)
    (h : ch ∈ (sanitize_filename v).data) : isSafeChar ch = true := by
  unfold sanitize_filename at h
  split at h
  · simp at h
    rcases h with rfl | rfl | rfl | rfl | rfl | rfl | rfl <;> decide
  · simp at h
    obtain ⟨c, -, rfl⟩ := h
    split
    · assumption
    · decide

theorem get_pods_cache_hit (st : StoreBehavior) (w : World) (req : PodsRequest)
    (v : List PodInfo)
    (ha : pyStrip (req.application.getD "") ≠ "")
    (hc : pyStrip (req.cluster.getD "") ≠ "")
    (hb : pyStrip (req.bundle.getD "") ≠ "")
    (hcache : w.podsCache (pods_cache_key (pyStrip (req.application.getD ""))
      (pyStrip (req.cluster.getD "")) (pyStrip (req.bundle.getD ""))) = some v)
    (hv : v ≠ []) :
    get_pods st w req =
      ({ status := 200, error := none, pods := v },
       [Effect.cacheReadPods (pods_cache_key (pyStrip (req.application.getD ""))
          (pyStrip (req.cluster.getD "")) (pyStrip (req.bundle.getD "")))]) := by
  unfold get_pods
  simp [isEmpty_false_of_ne ha, isEmpty_false_of_ne hc, isEmpty_false_of_ne hb,
    hcache, hv]

theorem get_pod_logs_cache_hit (st : StoreBehavior) (w : World)
    (req : PodLogsRequest) (v : String)
    (ha : pyStrip (req.application.getD "") ≠ "")
    (hc : pyStrip (req.cluster.getD "") ≠ "")
    (hb : pyStrip (req.bundle.getD "") ≠ "")
    (hp : pyStrip (req.pod.getD "") ≠ "")
    (hcache : w.podLogsCache (pod_logs_cache_key (pyStrip (req.application.getD ""))
      (pyStrip (req.cluster.getD "")) (pyStrip (req.bundle.getD ""))
      (pyStrip (req.pod.getD ""))) = some v)
    (hv : v ≠ "") :
    get_pod_logs st w req =
      ({ status := 200, error := none, logs := v },
       [Effect.cacheReadLogs (pod_logs_cache_key (pyStrip (req.application.getD ""))
          (pyStrip (req.cluster.getD "")) (pyStrip (req.bundle.getD ""))
          (pyStrip (req.pod.getD "")))]) := by
  unfold get_pod_logs
  simp [isEmpty_false_of_ne ha, isEmpty_false_of_ne hc, isEmpty_false_of_ne hb,
    isEmpty_false_of_ne hp, hcache, isEmpty_false_of_ne hv]

theorem get_pods_write_nonempty (st : StoreBehavior) (w : World) (req : PodsRequest)
    (k : String) (v : List PodInfo)
    (hmem : Effect.cacheWritePods k v ∈ (get_pods st w req).2) : v ≠ [] := by
  simp only [get_pods] at hmem
  split at hmem
  · simp at hmem
  · split at hmem
    · simp at hmem
    · rw [pods_es_effects] at hmem
      split at hmem <;> rename_i hes
      · simp at hmem
        obtain ⟨-, rfl⟩ := hmem
        intro hnil
        rw [hnil] at hes
        simp at hes
      · split at hmem <;> rename_i hcfg1
        · rcases cfg_effects w (pyStrip (req.application.getD ""))
            (pyStrip (req.cluster.getD "")) (pyStrip (req.bundle.getD "")) with hcfg | hcfg <;>
            simp [hcfg] at hmem <;>
            obtain ⟨-, rfl⟩ := hmem <;>
            · intro hnil
              rw [hnil] at hcfg1
              simp at hcfg1
        · rcases cfg_effects w (pyStrip (req.application.getD ""))
            (pyStrip (req.cluster.getD "")) (pyStrip (req.bundle.getD "")) with hcfg | hcfg <;>
            simp [hcfg] at hmem <;>
            obtain ⟨-, rfl⟩ := hmem <;>
            exact generate_sample_pods_ne_nil _ _

theorem get_pod_logs_write_nonempty (st : StoreBehavior) (w : World)
    (req : PodLogsRequest) (k v : String)
    (hmem : Effect.cacheWriteLogs k v ∈ (get_pod_logs st w req).2) : v ≠ "" := by
  simp only [get_pod_logs] at hmem
  split at hmem
  · simp at hmem
  · split at hmem
    · simp at hmem
    · simp only [List.mem_cons, List.mem_append] at hmem
      rcases hmem with (h | h) | h
      · simp at h
      · exact absurd h (resolve_no_cache_write st w _ _ _ _ k v)
      · simp at h
        rw [h.2]
        exact string_append_ne_empty_left (pod_logs_metadata_ne_empty _ _ _ _ _ _)

/-! ### The verified properties -/

/-- C1: any pod-list (`get_pods`) or pod-log (`get_pod_logs`) request in
which `application`, `cluster` or `bundle` is missing or blank is rejected
with the HTTP-400 "Missing required parameters" payload carrying an empty
result, before any effect at all — no cache access, no search-store call,
no synthesis, no file read. -/
theorem C1_blank_filters_rejected (st : StoreBehavior) (w : World)
    (preq : PodsRequest) (lreq : PodLogsRequest) :
    (pyStrip (preq.application.getD "") = "" ∨ pyStrip (preq.cluster.getD "") = ""
        ∨ pyStrip (preq.bundle.getD "") = "" →
      get_pods st w preq =
        ({ status := 400, error := some "Missing required parameters",
           pods := [] }, []))
    ∧ (pyStrip (lreq.application.getD "") = "" ∨ pyStrip (lreq.cluster.getD "") = ""
        ∨ pyStrip (lreq.bundle.getD "") = "" →
      get_pod_logs st w lreq =
        ({ status := 400, error := some "Missing required parameters",
           logs := "" }, [])) := by
  constructor
  · intro h
    unfold get_pods
    rcases h with h | h | h <;> simp [h, empty_isEmpty]
  · intro h
    unfold get_pod_logs
    rcases h with h | h | h <;> simp [h, empty_isEmpty]

/-- C1 witness: a concrete blank-cluster pod-list request and a concrete
blank-cluster pod-log request are both rejected with no effects. -/
theorem C1_blank_filters_rejected_witness :
    get_pods stubStore emptyWorld
        { application := some "FOBPM", cluster := some " ",
          bundle := some "Bulkdeviceenrollment" } =
      ({ status := 400, error := some "Missing required parameters",
         pods := [] }, [])
    ∧ get_pod_logs stubStore emptyWorld
        { application := some "FOBPM", cluster := some " ",
          bundle := some "Bulkdeviceenrollment", pod := some "pod-1" } =
      ({ status := 400, error := some "Missing required parameters",
         logs := "" }, []) :=
  ⟨(C1_blank_filters_rejected stubStore emptyWorld
      { application := some "FOBPM", cluster := some " ",
        bundle := some "Bulkdeviceenrollment" } {}).1
    (Or.inr (Or.inl (by decide))),
   (C1_blank_filters_rejected stubStore emptyWorld {}
      { application := some "FOBPM", cluster := some " ",
        bundle := some "Bulkdeviceenrollment", pod := some "pod-1" }).2
    (Or.inr (Or.inl (by decide)))⟩

/-- C2: a valid pod-logs request that misses the cache and for which the
search store yields zero matches both on the mapped (normalised) filter
values and on the original filter values resolves through on-the-fly
generation: the `found_log_source` tag is the code's `"auto-generated"`
(the spec's `synthetic` provenance), the returned payload is non-empty,
and the request attempts exactly one bulk-index call. -/
theorem C2_zero_match_synthetic_single_bulk (st : StoreBehavior) (w : World)
    (req : PodLogsRequest)
    (ha : pyStrip (req.application.getD "") ≠ "")
    (hc : pyStrip (req.cluster.getD "") ≠ "")
    (hb : pyStrip (req.bundle.getD "") ≠ "")
    (hp : pyStrip (req.pod.getD "") ≠ "")
    (hmiss : (w.podLogsCache (pod_logs_cache_key (pyStrip (req.application.getD ""))
      (pyStrip (req.cluster.getD "")) (pyStrip (req.bundle.getD ""))
      (pyStrip (req.pod.getD "")))).getD "" = "")
    (hzmapped : (search_logs st (pod_logs_query_params
      (pyStrip (req.application.getD "")) (pyStrip (req.cluster.getD ""))
      (pyStrip (req.bundle.getD "")) (pyStrip (req.pod.getD "")))).logs = [])
    (hzorig : (search_logs st (pod_logs_query_params_original
      (pyStrip (req.application.getD "")) (pyStrip (req.cluster.getD ""))
      (pyStrip (req.bundle.getD "")) (pyStrip (req.pod.getD "")))).logs = []) :
    (get_pod_logs_resolve st w (pyStrip (req.application.getD ""))
        (pyStrip (req.cluster.getD "")) (pyStrip (req.bundle.getD ""))
        (pyStrip (req.pod.getD ""))).2.1 = "auto-generated"
      ∧ sourceKindOf "auto-generated" = some SourceKind.synthetic
      ∧ (get_pod_logs st w req).1.logs ≠ ""
      ∧ ((get_pod_logs st w req).2.countP Effect.isBulk) = 1 := by
  have hes : (get_pod_logs_from_elasticsearch st (pyStrip (req.application.getD ""))
      (pyStrip (req.cluster.getD "")) (pyStrip (req.bundle.getD ""))
      (pyStrip (req.pod.getD "")) w.now).1 = none := by
    simp [get_pod_logs_from_elasticsearch, hzmapped]
  obtain ⟨xs, hhead⟩ := auto_text_head (pyStrip (req.application.getD ""))
    (pyStrip (req.cluster.getD "")) (pyStrip (req.bundle.getD ""))
    (pyStrip (req.pod.getD "")) w.now
  obtain ⟨n, hbulk⟩ := idx_bulk_of_bracket st _ (pyStrip (req.application.getD ""))
    (pyStrip (req.cluster.getD "")) (pyStrip (req.bundle.getD "")) w.now xs hhead
  have hres : get_pod_logs_resolve st w (pyStrip (req.application.getD ""))
      (pyStrip (req.cluster.getD "")) (pyStrip (req.bundle.getD ""))
      (pyStrip (req.pod.getD "")) =
      (auto_generate_pod_logs_text (pyStrip (req.application.getD ""))
        (pyStrip (req.cluster.getD "")) (pyStrip (req.bundle.getD ""))
        (pyStrip (req.pod.getD "")) w.now,
       "auto-generated",
       [Effect.storeSearch (pod_logs_query_params (pyStrip (req.application.getD ""))
          (pyStrip (req.cluster.getD "")) (pyStrip (req.bundle.getD ""))
          (pyStrip (req.pod.getD "")))] ++ [Effect.storeBulk n]) := by
    simp only [get_pod_logs_resolve, hes, get_pod_logs_from_files]
    simp [hbulk, pod_es_logs_effects, empty_isEmpty]
  refine ⟨by rw [hres], by decide, ?_, ?_⟩
  · unfold get_pod_logs
    simp only [isEmpty_false_of_ne ha, isEmpty_false_of_ne hc, isEmpty_false_of_ne hb,
      isEmpty_false_of_ne hp, hmiss, Bool.or_false, Bool.false_or]
    simp [hres, empty_isEmpty]
    exact string_append_ne_empty_left (pod_logs_metadata_ne_empty _ _ _ _ _ _)
  · unfold get_pod_logs
    simp only [isEmpty_false_of_ne ha, isEmpty_false_of_ne hc, isEmpty_false_of_ne hb,
      isEmpty_false_of_ne hp, hmiss, Bool.or_false, Bool.false_or]
    simp [hres, empty_isEmpty, List.countP_cons, Effect.isBulk]

/-- C2 witness: against a concrete unreachable store (both lookups yield
zero matches) with an empty cache, a concrete request resolves to the
auto-generated (synthetic) source, a non-empty payload, and exactly one
bulk-index attempt. -/
theorem C2_zero_match_synthetic_single_bulk_witness :
    (get_pod_logs_resolve stubStore emptyWorld "FOBPM" "cluster1"
        "Bulkdeviceenrollment" "pod-1").2.1 = "auto-generated"
      ∧ sourceKindOf "auto-generated" = some SourceKind.synthetic
      ∧ (get_pod_logs stubStore emptyWorld
          { application := some "FOBPM", cluster := some "cluster1",
            bundle := some "Bulkdeviceenrollment", pod := some "pod-1" }).1.logs ≠ ""
      ∧ ((get_pod_logs stubStore emptyWorld
          { application := some "FOBPM", cluster := some "cluster1",
            bundle := some "Bulkdeviceenrollment", pod := some "pod-1" }).2.countP
            Effect.isBulk) = 1 :=
  C2_zero_match_synthetic_single_bulk stubStore emptyWorld
    { application := some "FOBPM", cluster := some "cluster1",
      bundle := some "Bulkdeviceenrollment", pod := some "pod-1" }
    (by decide) (by decide) (by decide) (by decide) rfl (by decide) (by decide)

/-- C3: evaluating `generate_specific_sample_logs` on the scenario filter
`{application: FOBPM, cluster: cluster1, bundle: Bulkdeviceenrollment}` at
generation time 10000 with draws that select `minutes = 120` and
`seconds = 59` for the first entry produces an entry for pod
`fobpm-bulkdeviceenrollment-web-001` stamped 10059 — 59 seconds AFTER the
generation time, although the claim (and the source's own comment,
"Random time within the last 2 hours") requires every timestamp to lie in
the two hours preceding it. -/
theorem C3_generated_timestamp_exceeds_now :
    ((generate_specific_sample_logs "FOBPM" "cluster1" "Bulkdeviceenrollment" 10000
        [0, 0, 0, 0, 0, 0, 0, 0, 0, 0, 120, 59]).head?.map fun e =>
          (e.pod, e.timestamp))
      = some ("fobpm-bulkdeviceenrollment-web-001", 10059)
    ∧ 10000 < 10059 := ⟨rfl, by decide⟩

/-- C4: an analysis request — summarize or root-cause — whose effective
text is empty or one of the sentinel placeholders returns the
"nothing to analyze" payload with neither the remote-model tier nor the
local-heuristic tier invoked (no effects at all). -/
theorem C4_sentinel_text_rejected (cfg : AnalysisConfig) (oracle : RemoteOracle)
    (req : AnalysisPost) (now : Nat)
    (h : pyStrip (req.log_text.getD "") = ""
      ∨ pyStrip (req.log_text.getD "") = "Waiting for execution..."
      ∨ pyStrip (req.log_text.getD "") = "Fetching pod logs...") :
    summarize_logs cfg oracle req now =
      ({ body := "❌ No logs available to summarize.", ai_service := none,
         model := none }, [])
    ∧ analyze_logs cfg oracle req now =
      ({ body := "❌ No logs available for root cause analysis.",
         ai_service := none, model := none }, []) := by
  constructor
  · unfold summarize_logs
    rcases h with h | h | h <;> simp [h, empty_isEmpty]
  · unfold analyze_logs
    rcases h with h | h | h <;> simp [h, empty_isEmpty]

/-- C4 witness: the sentinel text "Waiting for execution..." is rejected by
both endpoints with no effects, even with a remote key configured. -/
theorem C4_sentinel_text_rejected_witness :
    summarize_logs { togetherApiKey := some "key" } stubOracle
        { log_text := some "Waiting for execution..." } 10000 =
      ({ body := "❌ No logs available to summarize.", ai_service := none,
         model := none }, [])
    ∧ analyze_logs { togetherApiKey := some "key" } stubOracle
        { log_text := some "Waiting for execution..." } 10000 =
      ({ body := "❌ No logs available for root cause analysis.",
         ai_service := none, model := none }, []) :=
  C4_sentinel_text_rejected { togetherApiKey := some "key" } stubOracle
    { log_text := some "Waiting for execution..." } 10000
    (Or.inr (Or.inl (by decide)))

/-- C5: with no remote-model key configured, every non-empty non-sentinel
summarize request is served by the local tier (`ai_service = "local_ai"`,
the spec's `local-heuristic`), and whenever the text contains an "ERROR"
substring the local summary's status classification is "errors detected". -/
theorem C5_local_fallback_and_error_status (oracle : RemoteOracle)
    (req : AnalysisPost) (now : Nat)
    (h1 : pyStrip (req.log_text.getD "") ≠ "")
    (h2 : pyStrip (req.log_text.getD "") ≠ "Waiting for execution...")
    (h3 : pyStrip (req.log_text.getD "") ≠ "Fetching pod logs...") :
    (summarize_logs { togetherApiKey := none } oracle req now).1.ai_service
        = some "local_ai"
      ∧ (pyIn "ERROR" (pyStrip (req.log_text.getD "")) = true →
          localSummaryStatus (pyStrip (req.log_text.getD ""))
            = SummaryStatus.errorsDetected) := by
  constructor
  · unfold summarize_logs
    simp [isEmpty_false_of_ne h1, h2, h3]
  · intro herr
    unfold localSummaryStatus
    rw [if_pos (error_line_count herr)]

/-- C5 witness: a concrete log text containing "ERROR" is summarised by the
local engine and classified as errors detected. -/
theorem C5_local_fallback_and_error_status_witness :
    (summarize_logs { togetherApiKey := none } stubOracle
        { log_text := some "boot ok\nERROR: disk failure" } 10000).1.ai_service
        = some "local_ai"
      ∧ localSummaryStatus (pyStrip "boot ok\nERROR: disk failure")
        = SummaryStatus.errorsDetected :=
  let h := C5_local_fallback_and_error_status stubOracle
    { log_text := some "boot ok\nERROR: disk failure" } 10000
    (by decide) (by decide) (by decide)
  ⟨h.1, h.2 (by decide)⟩

/-- C6 counterexample: the pod name "fobpm-warn-error-pod" contains "warn",
yet its auto-generated logs contain an ERROR-level line (the "error"
branch wins when both substrings occur), refuting the claim that every
"warn"-containing pod name yields no ERROR/FATAL line. -/
theorem C6_warn_error_pod_counterexample :
    pyIn "warn" (pyLower "fobpm-warn-error-pod") = true
    ∧ ∃ l ∈ auto_generate_pod_logs "FOBPM" "Cluster Prod AKS 1"
        "Bulkdeviceenrollment" "fobpm-warn-error-pod" 10000,
        (l.level = "ERROR" ∨ l.level = "FATAL") := by
  constructor
  · decide
  · refine ⟨⟨10000 - 5400 + 20 + 60, "ERROR",
      "Database connection timeout after 30s"⟩, ?_, Or.inl rfl⟩
    simp [auto_generate_pod_logs,
      show pyIn "error" (pyLower "fobpm-warn-error-pod") = true from by decide]

/-- C6 (amended): a pod name containing "error" (case-insensitively) always
yields at least one ERROR- or FATAL-level line; a pod name containing
"warn" AND NOT containing "error" yields at least one WARN-level line and
no ERROR- or FATAL-level line. -/
theorem C6_pod_name_level_bias (app cluster bundle pod : String) (now : Nat) :
    (pyIn "error" (pyLower pod) = true →
      ∃ l ∈ auto_generate_pod_logs app cluster bundle pod now,
        l.level = "ERROR" ∨ l.level = "FATAL")
    ∧ (pyIn "warn" (pyLower pod) = true → pyIn "error" (pyLower pod) = false →
        (∃ l ∈ auto_generate_pod_logs app cluster bundle pod now, l.level = "WARN")
        ∧ ∀ l ∈ auto_generate_pod_logs app cluster bundle pod now,
            l.level ≠ "ERROR" ∧ l.level ≠ "FATAL") := by
  constructor
  · intro herr
    refine ⟨⟨now - 5400 + 20 + 60, "ERROR",
      "Database connection timeout after 30s"⟩, ?_, Or.inl rfl⟩
    simp [auto_generate_pod_logs, herr]
  · intro hwarn herr
    constructor
    · refine ⟨⟨now - 5400 + 20 + 45, "WARN", "High CPU usage detected: 78%"⟩,
        ?_, rfl⟩
      simp [auto_generate_pod_logs, herr, hwarn]
    · intro l hl
      simp [auto_generate_pod_logs, herr, hwarn] at hl
      rcases hl with h | h | h | h | h | h | h | h <;> simp [h]

/-- C6 witness: a concrete "error" pod gets an ERROR/FATAL line, and a
concrete "warn" pod gets a WARN line and no ERROR/FATAL lines. -/
theorem C6_pod_name_level_bias_witness :
    (∃ l ∈ auto_generate_pod_logs "FOBPM" "cluster1" "Bulkdeviceenrollment"
        "fobpm-x-error-pod" 9000, l.level = "ERROR" ∨ l.level = "FATAL")
    ∧ ((∃ l ∈ auto_generate_pod_logs "FOBPM" "cluster1" "Bulkdeviceenrollment"
          "fobpm-warn-service" 9000, l.level = "WARN")
        ∧ ∀ l ∈ auto_generate_pod_logs "FOBPM" "cluster1" "Bulkdeviceenrollment"
            "fobpm-warn-service" 9000, l.level ≠ "ERROR" ∧ l.level ≠ "FATAL") :=
  ⟨(C6_pod_name_level_bias "FOBPM" "cluster1" "Bulkdeviceenrollment"
      "fobpm-x-error-pod" 9000).1 (by decide),
   (C6_pod_name_level_bias "FOBPM" "cluster1" "Bulkdeviceenrollment"
      "fobpm-warn-service" 9000).2 (by decide) (by decide)⟩

/-- C7 counterexample: the filters `(FOBPM, cluster1, Bulkdeviceenrollment,
POD-1)` and `(FOBPM, Cluster Prod AKS 1, Bulkdeviceenrollment, POD-1)`
normalise to the same tuple, yet both the pod-list cache key and the
pod-log cache key differ, because the source builds cache keys from the
original (un-normalised) filter values. -/
theorem C7_normalized_tuple_key_counterexample :
    map_frontend_to_elasticsearch_values "FOBPM" "cluster1" "Bulkdeviceenrollment"
        (some "POD-1")
      = map_frontend_to_elasticsearch_values "FOBPM" "Cluster Prod AKS 1"
        "Bulkdeviceenrollment" (some "POD-1")
    ∧ pod_logs_cache_key "FOBPM" "cluster1" "Bulkdeviceenrollment" "POD-1"
      ≠ pod_logs_cache_key "FOBPM" "Cluster Prod AKS 1" "Bulkdeviceenrollment"
        "POD-1"
    ∧ pods_cache_key "FOBPM" "cluster1" "Bulkdeviceenrollment"
      ≠ pods_cache_key "FOBPM" "Cluster Prod AKS 1" "Bulkdeviceenrollment" :=
  ⟨by decide, by decide, by decide⟩

/-- C7 (amended): the cache keys are deterministic strings built from the
ordered tuple of the ORIGINAL (un-normalised) filter field values, with
every character outside `[a-zA-Z0-9_-]` replaced by `'_'` — so every
character of every key is safe, and equal raw tuples always give equal
keys (equal normalised tuples need not, per the counterexample). -/
theorem C7_cache_key_sanitized_from_raw_tuple :
    (∀ app cluster bundle : String,
      ∀ ch ∈ (pods_cache_key app cluster bundle).data, isSafeChar ch = true)
    ∧ (∀ app cluster bundle pod : String,
        ∀ ch ∈ (pod_logs_cache_key app cluster bundle pod).data,
          isSafeChar ch = true)
    ∧ (∀ a c b a' c' b' : String, a = a' → c = c' → b = b' →
        pods_cache_key a c b = pods_cache_key a' c' b')
    ∧ (∀ a c b p a' c' b' p' : String, a = a' → c = c' → b = b' → p = p' →
        pod_logs_cache_key a c b p = pod_logs_cache_key a' c' b' p') := by
  refine ⟨?_, ?_, ?_, ?_⟩
  · intro app cluster bundle ch h
    simp only [pods_cache_key, String.data_append, List.mem_append] at h
    rcases h with ((((h | h) | h) | h) | h) | h
    · fin_cases h <;> decide
    · exact sanitize_safe _ _ h
    · fin_cases h <;> decide
    · exact sanitize_safe _ _ h
    · fin_cases h <;> decide
    · exact sanitize_safe _ _ h
  · intro app cluster bundle pod ch h
    simp only [pod_logs_cache_key, String.data_append, List.mem_append] at h
    rcases h with ((((((h | h) | h) | h) | h) | h) | h) | h
    · fin_cases h <;> decide
    · exact sanitize_safe _ _ h
    · fin_cases h <;> decide
    · exact sanitize_safe _ _ h
    · fin_cases h <;> decide
    · exact sanitize_safe _ _ h
    · fin_cases h <;> decide
    · exact sanitize_safe _ _ h
  · intro a c b a' c' b' h1 h2 h3
    rw [h1, h2, h3]
  · intro a c b p a' c' b' p' h1 h2 h3 h4
    rw [h1, h2, h3, h4]

/-- C7 witness: a character of a concrete key is safe, and a concrete equal
raw tuple reproduces its key. -/
theorem C7_cache_key_sanitized_from_raw_tuple_witness :
    isSafeChar 'p' = true
    ∧ pods_cache_key "FO BPM" "cluster1" "Bulkdeviceenrollment"
      = pods_cache_key "FO BPM" "cluster1" "Bulkdeviceenrollment" :=
  ⟨C7_cache_key_sanitized_from_raw_tuple.1 "FO BPM" "cluster1"
      "Bulkdeviceenrollment" 'p' (by decide),
   C7_cache_key_sanitized_from_raw_tuple.2.2.1 "FO BPM" "cluster1"
      "Bulkdeviceenrollment" "FO BPM" "cluster1" "Bulkdeviceenrollment"
      rfl rfl rfl⟩

/-- C8: the cache-hit frame property.  (i)/(ii) a valid pod-list or pod-log
request whose key holds a fresh truthy cache entry returns that entry
unchanged, with the cache probe as its only effect — no store call, no
synthesis, no file read, no cache write; (iii)/(iv) every value these
handlers ever write to the cache is truthy (non-empty), so a fresh entry
is never skipped by the handlers' truthiness check. -/
theorem C8_cache_hit_frame :
    (∀ (st : StoreBehavior) (w : World) (req : PodsRequest) (v : List PodInfo),
      pyStrip (req.application.getD "") ≠ "" →
      pyStrip (req.cluster.getD "") ≠ "" →
      pyStrip (req.bundle.getD "") ≠ "" →
      w.podsCache (pods_cache_key (pyStrip (req.application.getD ""))
        (pyStrip (req.cluster.getD "")) (pyStrip (req.bundle.getD ""))) = some v →
      v ≠ [] →
      get_pods st w req =
        ({ status := 200, error := none, pods := v },
         [Effect.cacheReadPods (pods_cache_key (pyStrip (req.application.getD ""))
            (pyStrip (req.cluster.getD "")) (pyStrip (req.bundle.getD "")))]))
    ∧ (∀ (st : StoreBehavior) (w : World) (req : PodLogsRequest) (v : String),
        pyStrip (req.application.getD "") ≠ "" →
        pyStrip (req.cluster.getD "") ≠ "" →
        pyStrip (req.bundle.getD "") ≠ "" →
        pyStrip (req.pod.getD "") ≠ "" →
        w.podLogsCache (pod_logs_cache_key (pyStrip (req.application.getD ""))
          (pyStrip (req.cluster.getD "")) (pyStrip (req.bundle.getD ""))
          (pyStrip (req.pod.getD ""))) = some v →
        v ≠ "" →
        get_pod_logs st w req =
          ({ status := 200, error := none, logs := v },
           [Effect.cacheReadLogs (pod_logs_cache_key
              (pyStrip (req.application.getD "")) (pyStrip (req.cluster.getD ""))
              (pyStrip (req.bundle.getD "")) (pyStrip (req.pod.getD "")))]))
    ∧ (∀ (st : StoreBehavior) (w : World) (req : PodsRequest) (k : String)
        (v : List PodInfo),
        Effect.cacheWritePods k v ∈ (get_pods st w req).2 → v ≠ [])
    ∧ (∀ (st : StoreBehavior) (w : World) (req : PodLogsRequest) (k v : String),
        Effect.cacheWriteLogs k v ∈ (get_pod_logs st w req).2 → v ≠ "") :=
  ⟨fun st w req v ha hc hb hcache hv =>
      get_pods_cache_hit st w req v ha hc hb hcache hv,
   fun st w req v ha hc hb hp hcache hv =>
      get_pod_logs_cache_hit st w req v ha hc hb hp hcache hv,
   fun st w req k v hmem => get_pods_write_nonempty st w req k v hmem,
   fun st w req k v hmem => get_pod_logs_write_nonempty st w req k v hmem⟩

/-- Every validated cache-missing pod-log request ends by writing the
metadata-prefixed resolved content under its key. -/
theorem get_pod_logs_miss_write_mem (st : StoreBehavior) (w : World)
    (req : PodLogsRequest)
    (ha : pyStrip (req.application.getD "") ≠ "")
    (hc : pyStrip (req.cluster.getD "") ≠ "")
    (hb : pyStrip (req.bundle.getD "") ≠ "")
    (hp : pyStrip (req.pod.getD "") ≠ "")
    (hmiss : (w.podLogsCache (pod_logs_cache_key (pyStrip (req.application.getD ""))
      (pyStrip (req.cluster.getD "")) (pyStrip (req.bundle.getD ""))
      (pyStrip (req.pod.getD "")))).getD "" = "") :
    Effect.cacheWriteLogs
        (pod_logs_cache_key (pyStrip (req.application.getD ""))
          (pyStrip (req.cluster.getD "")) (pyStrip (req.bundle.getD ""))
          (pyStrip (req.pod.getD "")))
        (pod_logs_metadata w.now
            (get_pod_logs_resolve st w (pyStrip (req.application.getD ""))
              (pyStrip (req.cluster.getD "")) (pyStrip (req.bundle.getD ""))
              (pyStrip (req.pod.getD ""))).2.1
            (pyStrip (req.pod.getD "")) (pyStrip (req.application.getD ""))
            (pyStrip (req.cluster.getD "")) (pyStrip (req.bundle.getD ""))
          ++ (get_pod_logs_resolve st w (pyStrip (req.application.getD ""))
              (pyStrip (req.cluster.getD "")) (pyStrip (req.bundle.getD ""))
              (pyStrip (req.pod.getD ""))).1)
      ∈ (get_pod_logs st w req).2 := by
  unfold get_pod_logs
  simp [isEmpty_false_of_ne ha, isEmpty_false_of_ne hc, isEmpty_false_of_ne hb,
    isEmpty_false_of_ne hp, hmiss, empty_isEmpty]

set_option maxRecDepth 100000 in
set_option maxHeartbeats 1000000 in
/-- C8 witness: a concrete cached pod list and pod-log body are returned
unchanged with only the cache probe as effect, and the concrete values
written by cache-missing runs are non-empty. -/
theorem C8_cache_hit_frame_witness :
    get_pods stubStore cachedWorld
        { application := some "FOBPM", cluster := some "cluster1",
          bundle := some "Bulkdeviceenrollment" } =
      ({ status := 200, error := none,
         pods := [{ name := "cached-pod", display_name := "Cached Pod (3 logs)" }] },
       [Effect.cacheReadPods
          (pods_cache_key "FOBPM" "cluster1" "Bulkdeviceenrollment")])
    ∧ get_pod_logs stubStore cachedWorld
        { application := some "FOBPM", cluster := some "cluster1",
          bundle := some "Bulkdeviceenrollment", pod := some "pod-1" } =
      ({ status := 200, error := none, logs := "previously cached pod logs" },
       [Effect.cacheReadLogs
          (pod_logs_cache_key "FOBPM" "cluster1" "Bulkdeviceenrollment" "pod-1")])
    ∧ generate_sample_pods "FOBPM" "Bulkdeviceenrollment" ≠ []
    ∧ (pod_logs_metadata emptyWorld.now
        (get_pod_logs_resolve stubStore emptyWorld "FOBPM" "cluster1"
          "Bulkdeviceenrollment" "pod-1").2.1
        "pod-1" "FOBPM" "cluster1" "Bulkdeviceenrollment"
        ++ (get_pod_logs_resolve stubStore emptyWorld "FOBPM" "cluster1"
          "Bulkdeviceenrollment" "pod-1").1) ≠ "" :=
  ⟨C8_cache_hit_frame.1 stubStore cachedWorld
      { application := some "FOBPM", cluster := some "cluster1",
        bundle := some "Bulkdeviceenrollment" }
      [{ name := "cached-pod", display_name := "Cached Pod (3 logs)" }]
      (by decide) (by decide) (by decide) (by decide) (by decide),
   C8_cache_hit_frame.2.1 stubStore cachedWorld
      { application := some "FOBPM", cluster := some "cluster1",
        bundle := some "Bulkdeviceenrollment", pod := some "pod-1" }
      "previously cached pod logs"
      (by decide) (by decide) (by decide) (by decide) (by decide) (by decide),
   C8_cache_hit_frame.2.2.1 stubStore emptyWorld
      { application := some "FOBPM", cluster := some "cluster1",
        bundle := some "Bulkdeviceenrollment" }
      (pods_cache_key "FOBPM" "cluster1" "Bulkdeviceenrollment")
      (generate_sample_pods "FOBPM" "Bulkdeviceenrollment") (by decide),
   C8_cache_hit_frame.2.2.2 stubStore emptyWorld
      { application := some "FOBPM", cluster := some "cluster1",
        bundle := some "Bulkdeviceenrollment", pod := some "pod-1" }
      (pod_logs_cache_key "FOBPM" "cluster1" "Bulkdeviceenrollment" "pod-1")
      (pod_logs_metadata emptyWorld.now
        (get_pod_logs_resolve stubStore emptyWorld "FOBPM" "cluster1"
          "Bulkdeviceenrollment" "pod-1").2.1
        "pod-1" "FOBPM" "cluster1" "Bulkdeviceenrollment"
        ++ (get_pod_logs_resolve stubStore emptyWorld "FOBPM" "cluster1"
          "Bulkdeviceenrollment" "pod-1").1)
      (get_pod_logs_miss_write_mem stubStore emptyWorld
        { application := some "FOBPM", cluster := some "cluster1",
          bundle := some "Bulkdeviceenrollment", pod := some "pod-1" }
        (by decide) (by decide) (by decide) (by decide) rfl)⟩

/-- C9: the frontend-to-store value mapping is idempotent — applying
`map_frontend_to_elasticsearch_values` to its own output returns that
output unchanged, for every input tuple. -/
theorem C9_normalization_idempotent (app cluster bundle : String)
    (pod : Option String) :
    map_frontend_to_elasticsearch_values
      ((map_frontend_to_elasticsearch_values app cluster bundle pod).1)
      ((map_frontend_to_elasticsearch_values app cluster bundle pod).2.1)
      ((map_frontend_to_elasticsearch_values app cluster bundle pod).2.2.1)
      ((map_frontend_to_elasticsearch_values app cluster bundle pod).2.2.2)
    = map_frontend_to_elasticsearch_values app cluster bundle pod := by
  unfold map_frontend_to_elasticsearch_values
  refine Prod.ext rfl (Prod.ext ?_ (Prod.ext ?_ ?_)) <;> simp only
  · cases hc : cluster_mapping cluster with
    | none => simp [hc]
    | some v => simp [hc, cluster_mapping_canon hc]
  · cases hb : bundle_mapping (pyLower bundle) with
    | none => simp [hb]
    | some v => simp [hb, bundle_mapping_canon hb]
  · cases pod with
    | none => rfl
    | some p => simp [Option.map, pyLower_idem]

/-- C10: the search-client adapter contains its failures.  The availability
probe is issued with a 5-second timeout and returns `true` exactly when it
gets HTTP 200 — an exception yields `false`, never a throw; and every
failure inside `search_logs` (store unavailable, raised exception, non-200
status, unparseable 200 body) is converted at the component boundary into
the empty result carrying an error field, while a parsed 200 response is
returned with no error. -/
theorem C10_search_adapter_failures_contained :
    (∀ st : StoreBehavior, (is_available st = true ↔ st.healthProbe 5 = .ok 200 ()))
    ∧ (∀ (st : StoreBehavior) (e : String),
        st.healthProbe 5 = .exn e → is_available st = false)
    ∧ (∀ (st : StoreBehavior) (p : QueryParams), is_available st = false →
        search_logs st p = searchErrResult "Elasticsearch not available")
    ∧ (∀ (st : StoreBehavior) (p : QueryParams) (e : String),
        is_available st = true →
        st.searchResp (buildSearchQuery p) = .exn e →
        search_logs st p = searchErrResult e)
    ∧ (∀ (st : StoreBehavior) (p : QueryParams) (status : Nat)
        (body : Option SearchBody), is_available st = true →
        st.searchResp (buildSearchQuery p) = .ok status body → status ≠ 200 →
        search_logs st p = searchErrResult ("HTTP " ++ toString status))
    ∧ (∀ (st : StoreBehavior) (p : QueryParams), is_available st = true →
        st.searchResp (buildSearchQuery p) = .ok 200 none →
        search_logs st p = searchErrResult "KeyError: hits")
    ∧ (∀ (st : StoreBehavior) (p : QueryParams) (b : SearchBody),
        is_available st = true →
        st.searchResp (buildSearchQuery p) = .ok 200 (some b) →
        search_logs st p =
          { logs := b.hits, total := b.total, page := some (p.page.getD 1),
            size := some b.hits.length, error := none }) := by
  refine ⟨?_, ?_, ?_, ?_, ?_, ?_, ?_⟩
  · intro st
    unfold is_available is_available_attempt
    cases hp : st.healthProbe 5 with
    | ok status u =>
        cases u
        constructor
        · intro h
          simp at h
          simp [h]
        · intro h
          injection h with h1 _
          simp [h1]
    | exn e => simp
  · intro st e h
    unfold is_available is_available_attempt
    rw [h]
  · intro st p h
    unfold search_logs search_logs_attempt
    rw [h]
    rfl
  · intro st p e ha hr
    unfold search_logs search_logs_attempt
    rw [ha, hr]
    rfl
  · intro st p status body ha hr hs
    unfold search_logs search_logs_attempt
    rw [ha, hr]
    simp [hs]
  · intro st p ha hr
    unfold search_logs search_logs_attempt
    rw [ha, hr]
    rfl
  · intro st p b ha hr
    unfold search_logs search_logs_attempt
    rw [ha, hr]
    rfl

/-- C10 witness: each failure mode exercised on a concrete store — probe
exception gives unavailability, and the unavailable / raising / HTTP-500 /
unparseable / empty-success stores each give the prescribed result. -/
theorem C10_search_adapter_failures_contained_witness :
    is_available stExn = true
    ∧ is_available stubStore = false
    ∧ search_logs stubStore {} = searchErrResult "Elasticsearch not available"
    ∧ search_logs stExn {} = searchErrResult "ConnectionError"
    ∧ search_logs st500 {} = searchErrResult ("HTTP " ++ toString 500)
    ∧ search_logs stBad {} = searchErrResult "KeyError: hits"
    ∧ search_logs stEmptyStore {} =
      { logs := [], total := 0, page := some 1, size := some 0, error := none } :=
  ⟨(C10_search_adapter_failures_contained.1 stExn).mpr rfl,
   C10_search_adapter_failures_contained.2.1 stubStore "ConnectionError" rfl,
   C10_search_adapter_failures_contained.2.2.1 stubStore {}
     (C10_search_adapter_failures_contained.2.1 stubStore "ConnectionError" rfl),
   C10_search_adapter_failures_contained.2.2.2.1 stExn {} "ConnectionError"
     ((C10_search_adapter_failures_contained.1 stExn).mpr rfl) rfl,
   C10_search_adapter_failures_contained.2.2.2.2.1 st500 {} 500 none
     ((C10_search_adapter_failures_contained.1 st500).mpr rfl) rfl (by decide),
   C10_search_adapter_failures_contained.2.2.2.2.2.1 stBad {}
     ((C10_search_adapter_failures_contained.1 stBad).mpr rfl) rfl,
   C10_search_adapter_failures_contained.2.2.2.2.2.2 stEmptyStore {}
     { hits := [], total := 0 }
     ((C10_search_adapter_failures_contained.1 stEmptyStore).mpr rfl) rfl⟩
